import Mathlib

/-!
# Pong (src/main.go): the per-frame simulation step

A shallow embedding of `NewGame`, `Game.resetBall` and `Game.Update`.

* `float64` has two readings.  In the first one its values are elements of an
  arbitrary linearly ordered field `F` (exact arithmetic); the theorems that need
  trigonometry are stated over the real numbers, and the functions of Go's `math`
  package that the program calls are collected in `MathOps`.  The second reading
  (section "The float64 reading of `Update`") rounds every operation to binary64
  and has NaN; it is used where the two readings differ.
* Go's `int` (the two scores) is a 64-bit two's-complement integer:
  `leftScore++` is `wrapInt (leftScore + 1)`.
* `ebiten.IsKeyPressed` is an `Input` snapshot, `rand.Float64()` is an explicit
  argument: `r₁` is the value of the first call made during a step, `r₂` of
  the second one.
* The colour and image fields of `Game` are only read by `Draw`; they are left
  out.
-/

namespace Pong

/-! ## Constants (main.go 15-27) -/

def ScreenWidth : Int := 1920
def ScreenHeight : Int := 1080

def PaddleWidth : Int := 12
def PaddleHeight : Int := 100
def PaddleSpeed : Int := 6

def BallSize : Int := 10

section Defs

variable {F : Type} [LinearOrderedField F]

/-- The floating-point constant `InitialSpeedX = 4.0`. -/
def InitialSpeedX : F := 4

/-- The floating-point constant `InitialSpeedY = 1.5`. -/
def InitialSpeedY : F := 3 / 2

/-- The part of Go's `math` package used by the program: `math.Pi`, `math.Sin`,
`math.Cos` and `math.Hypot` (`math.Abs` is the absolute value of the field). -/
structure MathOps (F : Type) where
  Pi : F
  Sin : F → F
  Cos : F → F
  Hypot : F → F → F

/-- The constant `MaxBounceAngle = 75 * math.Pi / 180`, in radians. -/
def MaxBounceAngle (m : MathOps F) : F := 75 * m.Pi / 180

/-! ## Data model (main.go 29-57) -/

/-- A player paddle. -/
structure Paddle (F : Type) where
  x : F
  y : F

/-- The game ball. -/
structure Ball (F : Type) where
  x : F
  y : F
  vx : F
  vy : F

/-- The world state (the fields read by `Update`). -/
structure Game (F : Type) where
  leftPaddle : Paddle F
  rightPaddle : Paddle F
  ball : Ball F
  leftScore : Int
  rightScore : Int
  paused : Bool

/-- The keys polled by `Update` through `ebiten.IsKeyPressed`. -/
structure Input where
  keySpace : Bool
  keyW : Bool
  keyS : Bool
  keyArrowUp : Bool
  keyArrowDown : Bool

/-- Width of Go's `int` on the 64-bit targets. -/
def intBits : Nat := 64

/-- Two's-complement wrap-around of a mathematical integer to `int`. -/
def wrapInt (n : Int) : Int :=
  (n + 2 ^ (intBits - 1)) % 2 ^ intBits - 2 ^ (intBits - 1)

/-- The largest `int`. -/
def maxInt : Int := 2 ^ (intBits - 1) - 1

/-- The smallest `int`. -/
def minInt : Int := -(2 ^ (intBits - 1))

/-! ## resetBall (main.go 81-92) -/

/-- The serve angle `(rand.Float64()*2 - 1) * (math.Pi/8)` for the draw `r`. -/
def serveAngle (m : MathOps F) (r : F) : F := (r * 2 - 1) * (m.Pi / 8)

/-- `resetBall(toRight)`, with `r` the value returned by `rand.Float64()`. -/
def resetBall (m : MathOps F) (g : Game F) (toRight : Bool) (r : F) : Game F :=
  let angle := serveAngle m r
  let speed : F := if !toRight then -InitialSpeedX else InitialSpeedX
  { g with
    ball :=
      { x := ((ScreenWidth / 2 - BallSize / 2 : Int) : F)
        y := ((ScreenHeight / 2 - BallSize / 2 : Int) : F)
        vx := speed
        vy := InitialSpeedY * m.Sin angle } }

/-! ## NewGame (main.go 59-65) -/

/-- `NewGame()`: both paddles centred, scores 0, not paused, ball served to
the right with the draw `r`. -/
def NewGame (m : MathOps F) (r : F) : Game F :=
  resetBall m
    { leftPaddle := { x := 20, y := (((ScreenHeight - PaddleHeight) / 2 : Int) : F) }
      rightPaddle :=
        { x := ((ScreenWidth - 20 - PaddleWidth : Int) : F)
          y := (((ScreenHeight - PaddleHeight) / 2 : Int) : F) }
      ball := { x := 0, y := 0, vx := 0, vy := 0 }
      leftScore := 0
      rightScore := 0
      paused := false }
    true r

/-! ## Update (main.go 94-200), one definition per block of the function -/

/-- Lines 96-100: the pause flag flips whenever the space key is down. -/
def togglePause (g : Game F) (inp : Input) : Game F :=
  if inp.keySpace then { g with paused := !g.paused } else g

/-- Lines 107-120: the four key tests, in program order. -/
def movePaddles (g : Game F) (inp : Input) : Game F :=
  let g := if inp.keyW then
    { g with leftPaddle := { g.leftPaddle with y := g.leftPaddle.y - (PaddleSpeed : F) } } else g
  let g := if inp.keyS then
    { g with leftPaddle := { g.leftPaddle with y := g.leftPaddle.y + (PaddleSpeed : F) } } else g
  let g := if inp.keyArrowUp then
    { g with rightPaddle := { g.rightPaddle with y := g.rightPaddle.y - (PaddleSpeed : F) } } else g
  let g := if inp.keyArrowDown then
    { g with rightPaddle := { g.rightPaddle with y := g.rightPaddle.y + (PaddleSpeed : F) } } else g
  g

/-- Lines 123-134: the four clamping tests, in program order. -/
def clampPaddles (g : Game F) : Game F :=
  let g := if g.leftPaddle.y < 0 then
    { g with leftPaddle := { g.leftPaddle with y := 0 } } else g
  let g := if g.leftPaddle.y > ((ScreenHeight - PaddleHeight : Int) : F) then
    { g with leftPaddle := { g.leftPaddle with y := ((ScreenHeight - PaddleHeight : Int) : F) } }
    else g
  let g := if g.rightPaddle.y < 0 then
    { g with rightPaddle := { g.rightPaddle with y := 0 } } else g
  let g := if g.rightPaddle.y > ((ScreenHeight - PaddleHeight : Int) : F) then
    { g with rightPaddle := { g.rightPaddle with y := ((ScreenHeight - PaddleHeight : Int) : F) } }
    else g
  g

/-- Lines 137-138: explicit Euler step of the ball. -/
def moveBall (g : Game F) : Game F :=
  { g with ball := { g.ball with x := g.ball.x + g.ball.vx, y := g.ball.y + g.ball.vy } }

/-- Lines 141-148: top, then bottom wall test. -/
def wallCollision (g : Game F) : Game F :=
  let g := if g.ball.y ≤ 0 then
    { g with ball := { g.ball with y := 0, vy := -g.ball.vy } } else g
  let g := if g.ball.y + (BallSize : F) ≥ (ScreenHeight : F) then
    { g with ball := { g.ball with y := ((ScreenHeight - BallSize : Int) : F), vy := -g.ball.vy } }
    else g
  g

/-- The condition of the `if` at lines 152-155. -/
def leftHit (g : Game F) : Prop :=
  g.ball.x ≤ g.leftPaddle.x + (PaddleWidth : F) ∧
  g.ball.x ≥ g.leftPaddle.x ∧
  g.ball.y + (BallSize : F) ≥ g.leftPaddle.y ∧
  g.ball.y ≤ g.leftPaddle.y + (PaddleHeight : F)

instance (g : Game F) : Decidable (leftHit g) := by
  unfold leftHit; exact inferInstance

/-- The condition of the `if` at lines 171-174. -/
def rightHit (g : Game F) : Prop :=
  g.ball.x + (BallSize : F) ≥ g.rightPaddle.x ∧
  g.ball.x + (BallSize : F) ≤ g.rightPaddle.x + (PaddleWidth : F) ∧
  g.ball.y + (BallSize : F) ≥ g.rightPaddle.y ∧
  g.ball.y ≤ g.rightPaddle.y + (PaddleHeight : F)

instance (g : Game F) : Decidable (rightHit g) := by
  unfold rightHit; exact inferInstance

/-- The value `normalized` of lines 158-160 and 176-178 for a paddle at height
`py` and the ball at height `bally`. -/
def normalizedOffset (py bally : F) : F :=
  let pCenter := py + ((PaddleHeight / 2 : Int) : F)
  let offset := (bally + ((BallSize / 2 : Int) : F)) - pCenter
  offset / ((PaddleHeight / 2 : Int) : F)

/-- The value `angle` of lines 161 and 179. -/
def bounceAngle (m : MathOps F) (py bally : F) : F :=
  normalizedOffset py bally * MaxBounceAngle m

/-- Lines 152-168: the left paddle. -/
def leftCollision (m : MathOps F) (g : Game F) : Game F :=
  if leftHit g then
    let angle := bounceAngle m g.leftPaddle.y g.ball.y
    let speed := m.Hypot g.ball.vx g.ball.vy
    { g with
      ball :=
        { x := g.leftPaddle.x + (PaddleWidth : F) + 1 / 10
          y := g.ball.y
          vx := |speed * m.Cos angle|
          vy := speed * m.Sin angle } }
  else g

/-- Lines 171-185: the right paddle. -/
def rightCollision (m : MathOps F) (g : Game F) : Game F :=
  if rightHit g then
    let angle := bounceAngle m g.rightPaddle.y g.ball.y
    let speed := m.Hypot g.ball.vx g.ball.vy
    { g with
      ball :=
        { x := g.rightPaddle.x - (BallSize : F) - 1 / 10
          y := g.ball.y
          vx := -|speed * m.Cos angle|
          vy := speed * m.Sin angle } }
  else g

/-- Lines 188-192: the ball left the arena on the left. -/
def scoreRight (m : MathOps F) (g : Game F) (r : F) : Game F :=
  if g.ball.x < ((-BallSize : Int) : F) then
    resetBall m { g with rightScore := wrapInt (g.rightScore + 1) } false r
  else g

/-- Lines 193-197: the ball left the arena on the right. -/
def scoreLeft (m : MathOps F) (g : Game F) (r : F) : Game F :=
  if g.ball.x > ((ScreenWidth + BallSize : Int) : F) then
    resetBall m { g with leftScore := wrapInt (g.leftScore + 1) } true r
  else g

/-- Lines 188-197: both scoring tests; the second `resetBall` draws `r₂` when
the first test already consumed `r₁`. -/
def scoring (m : MathOps F) (g : Game F) (r₁ r₂ : F) : Game F :=
  if g.ball.x < ((-BallSize : Int) : F) then
    scoreLeft m (scoreRight m g r₁) r₂
  else scoreLeft m g r₁

/-- Lines 106-148: the state right before the paddle tests of an unpaused step. -/
def beforePaddles (g : Game F) (inp : Input) : Game F :=
  wallCollision (moveBall (clampPaddles (movePaddles g inp)))

/-- Lines 106-185: the state right before the scoring tests of an unpaused
step. -/
def beforeScoring (m : MathOps F) (g : Game F) (inp : Input) : Game F :=
  rightCollision m (leftCollision m (beforePaddles g inp))

/-- Lines 106-197: everything after the `if g.paused { return nil }`. -/
def physics (m : MathOps F) (g : Game F) (inp : Input) (r₁ r₂ : F) : Game F :=
  scoring m (beforeScoring m g inp) r₁ r₂

/-- `Game.Update`. -/
def Update (m : MathOps F) (g : Game F) (inp : Input) (r₁ r₂ : F) : Game F :=
  let g := togglePause g inp
  if g.paused then g else physics m g inp r₁ r₂

/-- One frame: the keys held and the next two values of the random source. -/
structure Frame (F : Type) where
  inp : Input
  r₁ : F
  r₂ : F

/-- The state after a finite sequence of `Update` calls. -/
def run (m : MathOps F) (g : Game F) (fs : List (Frame F)) : Game F :=
  fs.foldl (fun g f => Update m g f.inp f.r₁ f.r₂) g

/-- The step is unpaused: the flag is clear after the toggle of lines 96-100. -/
def unpausedStep (g : Game F) (inp : Input) : Prop :=
  (togglePause g inp).paused = false

/-- The left-paddle branch (lines 152-168) is executed during `Update`. -/
def leftFires (g : Game F) (inp : Input) : Prop :=
  unpausedStep g inp ∧ leftHit (beforePaddles (togglePause g inp) inp)

/-- The right-paddle branch (lines 171-185) is executed during `Update`. -/
def rightFires (m : MathOps F) (g : Game F) (inp : Input) : Prop :=
  unpausedStep g inp ∧ rightHit (leftCollision m (beforePaddles (togglePause g inp) inp))

/-- The ball position that decides the scoring tests of an unpaused step: its x
after integration and collision handling (lines 106-185). -/
def xBeforeScoring (m : MathOps F) (g : Game F) (inp : Input) : F :=
  (beforeScoring m (togglePause g inp) inp).ball.x

/-- Both paddles are inside the arena: `0 ≤ y ≤ ScreenHeight - PaddleHeight`. -/
def paddlesInRange (g : Game F) : Prop :=
  (0 ≤ g.leftPaddle.y ∧ g.leftPaddle.y ≤ ((ScreenHeight - PaddleHeight : Int) : F)) ∧
  (0 ≤ g.rightPaddle.y ∧ g.rightPaddle.y ≤ ((ScreenHeight - PaddleHeight : Int) : F))

/-- No key is down. -/
def noKeys : Input :=
  { keySpace := false, keyW := false, keyS := false, keyArrowUp := false, keyArrowDown := false }

/-- Only the space key is down. -/
def spaceOnly : Input :=
  { keySpace := true, keyW := false, keyS := false, keyArrowUp := false, keyArrowDown := false }

/-- A state with the paddles where `NewGame` puts them and the given ball. -/
def stateWithBall (b : Ball F) : Game F :=
  { leftPaddle := { x := 20, y := 490 }
    rightPaddle := { x := 1888, y := 490 }
    ball := b
    leftScore := 0
    rightScore := 0
    paused := false }

/-- A state with the paddles where `NewGame` puts them, the given ball and the given
scores (left, right). -/
def stateWithScores (b : Ball F) (ls rs : Int) : Game F :=
  { leftPaddle := { x := 20, y := 490 }
    rightPaddle := { x := 1888, y := 490 }
    ball := b
    leftScore := ls
    rightScore := rs
    paused := false }

/-- A paused state with the paddles where `NewGame` puts them and the given ball. -/
def pausedStateWithBall (b : Ball F) : Game F :=
  { leftPaddle := { x := 20, y := 490 }
    rightPaddle := { x := 1888, y := 490 }
    ball := b
    leftScore := 0
    rightScore := 0
    paused := true }

/-- A state with the left paddle at the top of the arena and the given ball. -/
def stateTopPaddle (b : Ball F) : Game F :=
  { leftPaddle := { x := 20, y := 0 }
    rightPaddle := { x := 1888, y := 490 }
    ball := b
    leftScore := 0
    rightScore := 0
    paused := false }

/-- The `clamp(v, lo, hi)` of the specification: `v` limited to `[lo, hi]`. -/
def clamp (v lo hi : F) : F := min (max v lo) hi

/-- The bracket `[key]` of the specification: 1 when the key is held, 0 otherwise. -/
def held (key : Bool) : F := if key then 1 else 0

/-- The ball speed is the one of a serve or of a bounce of a served ball:
`InitialSpeedX ≤ hypot(vx, vy) ≤ hypot(InitialSpeedX, InitialSpeedY)`. -/
def speedInRange (m : MathOps F) (g : Game F) : Prop :=
  InitialSpeedX ≤ m.Hypot g.ball.vx g.ball.vy ∧
  m.Hypot g.ball.vx g.ball.vy ≤ m.Hypot InitialSpeedX InitialSpeedY

/-- The horizontal speed left by a bounce of a ball of speed `InitialSpeedX` at the
steepest possible angle, 82.5 degrees. -/
def minHorizontalSpeed (m : MathOps F) : F := InitialSpeedX * m.Cos (165 / 2 * m.Pi / 180)

end Defs

/-- The real-number reading of Go's `math` package. -/
noncomputable def realMath : MathOps ℝ where
  Pi := Real.pi
  Sin := Real.sin
  Cos := Real.cos
  Hypot := fun p q => Real.sqrt (p ^ 2 + q ^ 2)

/-! ## The float64 reading of `Update`

The same blocks as above, with every arithmetic operation rounded to binary64
(round to nearest, ties to even, 53 significant bits) and with NaN: `none` is NaN,
`some x` is the number `x`.  A comparison with NaN is false, an operation on NaN is
NaN.  The exponent range is not bounded (no overflow to an infinity, no subnormal
numbers), and every operation is rounded on its own (no fused multiply-add). -/

section DefsF64

variable {F : Type} [LinearOrderedField F] [FloorRing F]

/-- Round to the nearest integer, ties to the even one. -/
def roundHalfEven (x : F) : Int :=
  if x - (⌊x⌋ : F) < 1 / 2 then ⌊x⌋
  else if 1 / 2 < x - (⌊x⌋ : F) then ⌊x⌋ + 1
  else if ⌊x⌋ % 2 = 0 then ⌊x⌋ else ⌊x⌋ + 1

/-- The binary64 number nearest to `x` (ties to even): `x` is rounded to a multiple of
`2 ^ (e - 52)`, where `2 ^ e ≤ |x| < 2 ^ (e + 1)`. -/
def fl64 (x : F) : F :=
  if x = 0 then 0
  else (roundHalfEven (x / 2 ^ (Int.log 2 |x| - 52)) : F) * 2 ^ (Int.log 2 |x| - 52)

/-- A float64 value: `some x` for the number `x`, `none` for NaN. -/
abbrev Float64 (F : Type) : Type := Option F

/-- The float64 sum. -/
def addF64 (a b : Float64 F) : Float64 F :=
  match a, b with
  | some x, some y => some (fl64 (x + y))
  | _, _ => none

/-- The float64 difference. -/
def subF64 (a b : Float64 F) : Float64 F :=
  match a, b with
  | some x, some y => some (fl64 (x - y))
  | _, _ => none

/-- The float64 product. -/
def mulF64 (a b : Float64 F) : Float64 F :=
  match a, b with
  | some x, some y => some (fl64 (x * y))
  | _, _ => none

/-- The float64 quotient (the program only divides by the constant 50). -/
def divF64 (a b : Float64 F) : Float64 F :=
  match a, b with
  | some x, some y => some (fl64 (x / y))
  | _, _ => none

/-- Unary minus, exact. -/
def negF64 (a : Float64 F) : Float64 F := a.map (fun x => -x)

/-- The value of `math.Abs`, exact. -/
def absF64 (a : Float64 F) : Float64 F := a.map (fun x => |x|)

/-- The comparison `a < b`; false when an operand is NaN. -/
def ltF64 (a b : Float64 F) : Bool :=
  match a, b with
  | some x, some y => decide (x < y)
  | _, _ => false

/-- The comparison `a <= b`; false when an operand is NaN. -/
def leF64 (a b : Float64 F) : Bool :=
  match a, b with
  | some x, some y => decide (x ≤ y)
  | _, _ => false

/-- The comparison `a > b`. -/
def gtF64 (a b : Float64 F) : Bool := ltF64 b a

/-- The comparison `a >= b`. -/
def geF64 (a b : Float64 F) : Bool := leF64 b a

/-- The float64 values the program takes from the `math` package: the constants
`math.Pi/8` and `75 * math.Pi / 180` (constant expressions, evaluated exactly and
rounded once) and the functions `math.Sin`, `math.Cos`, `math.Hypot`. -/
structure MathOpsF64 (F : Type) where
  PiOver8 : Float64 F
  MaxBounceAngle : Float64 F
  Sin : Float64 F → Float64 F
  Cos : Float64 F → Float64 F
  Hypot : Float64 F → Float64 F → Float64 F

/-- `resetBall(toRight)` in float64, with `r` the value returned by `rand.Float64()`. -/
def resetBallF64 (m : MathOpsF64 F) (g : Game (Float64 F)) (toRight : Bool) (r : Float64 F) :
    Game (Float64 F) :=
  let angle := mulF64 (subF64 (mulF64 r (some 2)) (some 1)) m.PiOver8
  let speed : Float64 F := if !toRight then some (-InitialSpeedX) else some InitialSpeedX
  { g with
    ball :=
      { x := some ((ScreenWidth / 2 - BallSize / 2 : Int) : F)
        y := some ((ScreenHeight / 2 - BallSize / 2 : Int) : F)
        vx := speed
        vy := mulF64 (some InitialSpeedY) (m.Sin angle) } }

/-- Lines 107-120 in float64. -/
def movePaddlesF64 (g : Game (Float64 F)) (inp : Input) : Game (Float64 F) :=
  let g := if inp.keyW then
    { g with leftPaddle :=
      { g.leftPaddle with y := subF64 g.leftPaddle.y (some (PaddleSpeed : F)) } } else g
  let g := if inp.keyS then
    { g with leftPaddle :=
      { g.leftPaddle with y := addF64 g.leftPaddle.y (some (PaddleSpeed : F)) } } else g
  let g := if inp.keyArrowUp then
    { g with rightPaddle :=
      { g.rightPaddle with y := subF64 g.rightPaddle.y (some (PaddleSpeed : F)) } } else g
  let g := if inp.keyArrowDown then
    { g with rightPaddle :=
      { g.rightPaddle with y := addF64 g.rightPaddle.y (some (PaddleSpeed : F)) } } else g
  g

/-- Lines 123-134 in float64. -/
def clampPaddlesF64 (g : Game (Float64 F)) : Game (Float64 F) :=
  let g := if ltF64 g.leftPaddle.y (some 0) then
    { g with leftPaddle := { g.leftPaddle with y := some 0 } } else g
  let g := if gtF64 g.leftPaddle.y (some ((ScreenHeight - PaddleHeight : Int) : F)) then
    { g with leftPaddle :=
      { g.leftPaddle with y := some ((ScreenHeight - PaddleHeight : Int) : F) } }
    else g
  let g := if ltF64 g.rightPaddle.y (some 0) then
    { g with rightPaddle := { g.rightPaddle with y := some 0 } } else g
  let g := if gtF64 g.rightPaddle.y (some ((ScreenHeight - PaddleHeight : Int) : F)) then
    { g with rightPaddle :=
      { g.rightPaddle with y := some ((ScreenHeight - PaddleHeight : Int) : F) } }
    else g
  g

/-- Lines 137-138 in float64. -/
def moveBallF64 (g : Game (Float64 F)) : Game (Float64 F) :=
  { g with ball :=
    { g.ball with x := addF64 g.ball.x g.ball.vx, y := addF64 g.ball.y g.ball.vy } }

/-- Lines 141-148 in float64. -/
def wallCollisionF64 (g : Game (Float64 F)) : Game (Float64 F) :=
  let g := if leF64 g.ball.y (some 0) then
    { g with ball := { g.ball with y := some 0, vy := negF64 g.ball.vy } } else g
  let g := if geF64 (addF64 g.ball.y (some (BallSize : F))) (some (ScreenHeight : F)) then
    { g with ball :=
      { g.ball with y := some ((ScreenHeight - BallSize : Int) : F), vy := negF64 g.ball.vy } }
    else g
  g

/-- The condition of the `if` at lines 152-155 in float64. -/
def leftHitF64 (g : Game (Float64 F)) : Bool :=
  leF64 g.ball.x (addF64 g.leftPaddle.x (some (PaddleWidth : F))) &&
  geF64 g.ball.x g.leftPaddle.x &&
  geF64 (addF64 g.ball.y (some (BallSize : F))) g.leftPaddle.y &&
  leF64 g.ball.y (addF64 g.leftPaddle.y (some (PaddleHeight : F)))

/-- The condition of the `if` at lines 171-174 in float64. -/
def rightHitF64 (g : Game (Float64 F)) : Bool :=
  geF64 (addF64 g.ball.x (some (BallSize : F))) g.rightPaddle.x &&
  leF64 (addF64 g.ball.x (some (BallSize : F)))
    (addF64 g.rightPaddle.x (some (PaddleWidth : F))) &&
  geF64 (addF64 g.ball.y (some (BallSize : F))) g.rightPaddle.y &&
  leF64 g.ball.y (addF64 g.rightPaddle.y (some (PaddleHeight : F)))

/-- The value `normalized` of lines 158-160 and 176-178 in float64. -/
def normalizedOffsetF64 (py bally : Float64 F) : Float64 F :=
  let pCenter := addF64 py (some ((PaddleHeight / 2 : Int) : F))
  let offset := subF64 (addF64 bally (some ((BallSize / 2 : Int) : F))) pCenter
  divF64 offset (some ((PaddleHeight / 2 : Int) : F))

/-- The value `angle` of lines 161 and 179 in float64. -/
def bounceAngleF64 (m : MathOpsF64 F) (py bally : Float64 F) : Float64 F :=
  mulF64 (normalizedOffsetF64 py bally) m.MaxBounceAngle

/-- Lines 152-168 in float64. -/
def leftCollisionF64 (m : MathOpsF64 F) (g : Game (Float64 F)) : Game (Float64 F) :=
  if leftHitF64 g then
    let angle := bounceAngleF64 m g.leftPaddle.y g.ball.y
    let speed := m.Hypot g.ball.vx g.ball.vy
    { g with
      ball :=
        { x := addF64 (addF64 g.leftPaddle.x (some (PaddleWidth : F))) (some (fl64 (1 / 10)))
          y := g.ball.y
          vx := absF64 (mulF64 speed (m.Cos angle))
          vy := mulF64 speed (m.Sin angle) } }
  else g

/-- Lines 171-185 in float64. -/
def rightCollisionF64 (m : MathOpsF64 F) (g : Game (Float64 F)) : Game (Float64 F) :=
  if rightHitF64 g then
    let angle := bounceAngleF64 m g.rightPaddle.y g.ball.y
    let speed := m.Hypot g.ball.vx g.ball.vy
    { g with
      ball :=
        { x := subF64 (subF64 g.rightPaddle.x (some (BallSize : F))) (some (fl64 (1 / 10)))
          y := g.ball.y
          vx := negF64 (absF64 (mulF64 speed (m.Cos angle)))
          vy := mulF64 speed (m.Sin angle) } }
  else g

/-- Lines 188-192 in float64. -/
def scoreRightF64 (m : MathOpsF64 F) (g : Game (Float64 F)) (r : Float64 F) :
    Game (Float64 F) :=
  if ltF64 g.ball.x (some ((-BallSize : Int) : F)) then
    resetBallF64 m { g with rightScore := wrapInt (g.rightScore + 1) } false r
  else g

/-- Lines 193-197 in float64. -/
def scoreLeftF64 (m : MathOpsF64 F) (g : Game (Float64 F)) (r : Float64 F) :
    Game (Float64 F) :=
  if gtF64 g.ball.x (some ((ScreenWidth + BallSize : Int) : F)) then
    resetBallF64 m { g with leftScore := wrapInt (g.leftScore + 1) } true r
  else g

/-- Lines 188-197 in float64; the second `resetBall` draws `r₂` when the first test
already consumed `r₁`. -/
def scoringF64 (m : MathOpsF64 F) (g : Game (Float64 F)) (r₁ r₂ : Float64 F) :
    Game (Float64 F) :=
  if ltF64 g.ball.x (some ((-BallSize : Int) : F)) then
    scoreLeftF64 m (scoreRightF64 m g r₁) r₂
  else scoreLeftF64 m g r₁

/-- Lines 106-148 in float64. -/
def beforePaddlesF64 (g : Game (Float64 F)) (inp : Input) : Game (Float64 F) :=
  wallCollisionF64 (moveBallF64 (clampPaddlesF64 (movePaddlesF64 g inp)))

/-- `Game.Update` in float64. -/
def UpdateF64 (m : MathOpsF64 F) (g : Game (Float64 F)) (inp : Input) (r₁ r₂ : Float64 F) :
    Game (Float64 F) :=
  let g := togglePause g inp
  if g.paused then g
  else scoringF64 m
    (rightCollisionF64 m (leftCollisionF64 m (beforePaddlesF64 g inp))) r₁ r₂

/-- A float64 state with the paddles at their game x positions, the left paddle at
height `ly`, the right one at 490, and the given ball. -/
def stateF64 (ly : Float64 F) (b : Ball (Float64 F)) : Game (Float64 F) :=
  { leftPaddle := { x := some 20, y := ly }
    rightPaddle := { x := some 1888, y := some 490 }
    ball := b
    leftScore := 0
    rightScore := 0
    paused := false }

/-- The keys W and S held together. -/
def keysWS : Input :=
  { keySpace := false, keyW := true, keyS := true, keyArrowUp := false, keyArrowDown := false }

end DefsF64

/-- The `math` package in float64, each result taken correctly rounded (an idealisation:
the theorems on the float64 reading hold for every choice of these functions and
evaluate none of them). -/
noncomputable def ieeeMath : MathOpsF64 ℝ where
  PiOver8 := some (fl64 (Real.pi / 8))
  MaxBounceAngle := some (fl64 (75 * Real.pi / 180))
  Sin := fun a => a.map (fun x => fl64 (Real.sin x))
  Cos := fun a => a.map (fun x => fl64 (Real.cos x))
  Hypot := fun a b =>
    match a, b with
    | some p, some q => some (fl64 (Real.sqrt (p ^ 2 + q ^ 2)))
    | _, _ => none

/-! ## The constant expressions of the program, evaluated -/

section Constants
variable {F : Type} [LinearOrderedField F]

lemma paddleMax_eq : (((ScreenHeight - PaddleHeight : Int)) : F) = 980 := by
  norm_num [ScreenHeight, PaddleHeight]
lemma ballMax_eq : (((ScreenHeight - BallSize : Int)) : F) = 1070 := by
  norm_num [ScreenHeight, BallSize]
lemma centreX_eq : ((ScreenWidth / 2 - BallSize / 2 : Int) : F) = 955 := by
  norm_num [ScreenWidth, BallSize]
lemma centreY_eq : ((ScreenHeight / 2 - BallSize / 2 : Int) : F) = 535 := by
  norm_num [ScreenHeight, BallSize]
lemma halfPaddle_eq : ((PaddleHeight / 2 : Int) : F) = 50 := by
  norm_num [PaddleHeight]
lemma halfBall_eq : ((BallSize / 2 : Int) : F) = 5 := by
  norm_num [BallSize]
lemma negBall_eq : ((-BallSize : Int) : F) = -10 := by
  norm_num [BallSize]
lemma rightEdge_eq : ((ScreenWidth + BallSize : Int) : F) = 1930 := by
  norm_num [ScreenWidth, BallSize]
lemma startY_eq : (((ScreenHeight - PaddleHeight) / 2 : Int) : F) = 490 := by
  norm_num [ScreenHeight, PaddleHeight]
lemma rightX_eq : ((ScreenWidth - 20 - PaddleWidth : Int) : F) = 1888 := by
  norm_num [ScreenWidth, PaddleWidth]
lemma ballSize_eq : ((BallSize : Int) : F) = 10 := by norm_num [BallSize]
lemma paddleWidth_eq : ((PaddleWidth : Int) : F) = 12 := by norm_num [PaddleWidth]
lemma paddleHeight_eq : ((PaddleHeight : Int) : F) = 100 := by norm_num [PaddleHeight]
lemma paddleSpeed_eq : ((PaddleSpeed : Int) : F) = 6 := by norm_num [PaddleSpeed]
lemma screenHeight_eq : ((ScreenHeight : Int) : F) = 1080 := by norm_num [ScreenHeight]
end Constants

/-! ## Frame lemmas: what each block of `Update` leaves untouched -/

section FramePause
variable {F : Type}

@[simp] lemma togglePause_leftPaddle (g : Game F) (inp : Input) :
    (togglePause g inp).leftPaddle = g.leftPaddle := by
  unfold togglePause; split_ifs <;> rfl

@[simp] lemma togglePause_rightPaddle (g : Game F) (inp : Input) :
    (togglePause g inp).rightPaddle = g.rightPaddle := by
  unfold togglePause; split_ifs <;> rfl

@[simp] lemma togglePause_ball (g : Game F) (inp : Input) :
    (togglePause g inp).ball = g.ball := by
  unfold togglePause; split_ifs <;> rfl

@[simp] lemma togglePause_leftScore (g : Game F) (inp : Input) :
    (togglePause g inp).leftScore = g.leftScore := by
  unfold togglePause; split_ifs <;> rfl

@[simp] lemma togglePause_rightScore (g : Game F) (inp : Input) :
    (togglePause g inp).rightScore = g.rightScore := by
  unfold togglePause; split_ifs <;> rfl

end FramePause

section Frame
variable {F : Type} [LinearOrderedField F]

@[simp] lemma movePaddles_ball (g : Game F) (inp : Input) :
    (movePaddles g inp).ball = g.ball := by
  unfold movePaddles; simp only []; split_ifs <;> rfl

@[simp] lemma movePaddles_leftScore (g : Game F) (inp : Input) :
    (movePaddles g inp).leftScore = g.leftScore := by
  unfold movePaddles; simp only []; split_ifs <;> rfl

@[simp] lemma movePaddles_rightScore (g : Game F) (inp : Input) :
    (movePaddles g inp).rightScore = g.rightScore := by
  unfold movePaddles; simp only []; split_ifs <;> rfl

@[simp] lemma movePaddles_paused (g : Game F) (inp : Input) :
    (movePaddles g inp).paused = g.paused := by
  unfold movePaddles; simp only []; split_ifs <;> rfl

@[simp] lemma clampPaddles_ball (g : Game F) :
    (clampPaddles g).ball = g.ball := by
  unfold clampPaddles; simp only []; split_ifs <;> rfl

@[simp] lemma clampPaddles_leftScore (g : Game F) :
    (clampPaddles g).leftScore = g.leftScore := by
  unfold clampPaddles; simp only []; split_ifs <;> rfl

@[simp] lemma clampPaddles_rightScore (g : Game F) :
    (clampPaddles g).rightScore = g.rightScore := by
  unfold clampPaddles; simp only []; split_ifs <;> rfl

@[simp] lemma clampPaddles_paused (g : Game F) :
    (clampPaddles g).paused = g.paused := by
  unfold clampPaddles; simp only []; split_ifs <;> rfl

@[simp] lemma moveBall_leftPaddle (g : Game F) :
    (moveBall g).leftPaddle = g.leftPaddle := by
  rfl

@[simp] lemma moveBall_rightPaddle (g : Game F) :
    (moveBall g).rightPaddle = g.rightPaddle := by
  rfl

@[simp] lemma moveBall_leftScore (g : Game F) :
    (moveBall g).leftScore = g.leftScore := by
  rfl

@[simp] lemma moveBall_rightScore (g : Game F) :
    (moveBall g).rightScore = g.rightScore := by
  rfl

@[simp] lemma moveBall_paused (g : Game F) :
    (moveBall g).paused = g.paused := by
  rfl

@[simp] lemma wallCollision_leftPaddle (g : Game F) :
    (wallCollision g).leftPaddle = g.leftPaddle := by
  unfold wallCollision; simp only []; split_ifs <;> rfl

@[simp] lemma wallCollision_rightPaddle (g : Game F) :
    (wallCollision g).rightPaddle = g.rightPaddle := by
  unfold wallCollision; simp only []; split_ifs <;> rfl

@[simp] lemma wallCollision_leftScore (g : Game F) :
    (wallCollision g).leftScore = g.leftScore := by
  unfold wallCollision; simp only []; split_ifs <;> rfl

@[simp] lemma wallCollision_rightScore (g : Game F) :
    (wallCollision g).rightScore = g.rightScore := by
  unfold wallCollision; simp only []; split_ifs <;> rfl

@[simp] lemma wallCollision_paused (g : Game F) :
    (wallCollision g).paused = g.paused := by
  unfold wallCollision; simp only []; split_ifs <;> rfl

@[simp] lemma leftCollision_leftPaddle (m : MathOps F) (g : Game F) :
    (leftCollision m g).leftPaddle = g.leftPaddle := by
  unfold leftCollision; split_ifs <;> rfl

@[simp] lemma leftCollision_rightPaddle (m : MathOps F) (g : Game F) :
    (leftCollision m g).rightPaddle = g.rightPaddle := by
  unfold leftCollision; split_ifs <;> rfl

@[simp] lemma leftCollision_leftScore (m : MathOps F) (g : Game F) :
    (leftCollision m g).leftScore = g.leftScore := by
  unfold leftCollision; split_ifs <;> rfl

@[simp] lemma leftCollision_rightScore (m : MathOps F) (g : Game F) :
    (leftCollision m g).rightScore = g.rightScore := by
  unfold leftCollision; split_ifs <;> rfl

@[simp] lemma leftCollision_paused (m : MathOps F) (g : Game F) :
    (leftCollision m g).paused = g.paused := by
  unfold leftCollision; split_ifs <;> rfl

@[simp] lemma rightCollision_leftPaddle (m : MathOps F) (g : Game F) :
    (rightCollision m g).leftPaddle = g.leftPaddle := by
  unfold rightCollision; split_ifs <;> rfl

@[simp] lemma rightCollision_rightPaddle (m : MathOps F) (g : Game F) :
    (rightCollision m g).rightPaddle = g.rightPaddle := by
  unfold rightCollision; split_ifs <;> rfl

@[simp] lemma rightCollision_leftScore (m : MathOps F) (g : Game F) :
    (rightCollision m g).leftScore = g.leftScore := by
  unfold rightCollision; split_ifs <;> rfl

@[simp] lemma rightCollision_rightScore (m : MathOps F) (g : Game F) :
    (rightCollision m g).rightScore = g.rightScore := by
  unfold rightCollision; split_ifs <;> rfl

@[simp] lemma rightCollision_paused (m : MathOps F) (g : Game F) :
    (rightCollision m g).paused = g.paused := by
  unfold rightCollision; split_ifs <;> rfl

@[simp] lemma resetBall_leftPaddle (m : MathOps F) (g : Game F) (b : Bool) (r : F) :
    (resetBall m g b r).leftPaddle = g.leftPaddle := by
  rfl

@[simp] lemma resetBall_rightPaddle (m : MathOps F) (g : Game F) (b : Bool) (r : F) :
    (resetBall m g b r).rightPaddle = g.rightPaddle := by
  rfl

@[simp] lemma resetBall_leftScore (m : MathOps F) (g : Game F) (b : Bool) (r : F) :
    (resetBall m g b r).leftScore = g.leftScore := by
  rfl

@[simp] lemma resetBall_rightScore (m : MathOps F) (g : Game F) (b : Bool) (r : F) :
    (resetBall m g b r).rightScore = g.rightScore := by
  rfl

@[simp] lemma resetBall_paused (m : MathOps F) (g : Game F) (b : Bool) (r : F) :
    (resetBall m g b r).paused = g.paused := by
  rfl

@[simp] lemma scoreRight_leftPaddle (m : MathOps F) (g : Game F) (r : F) :
    (scoreRight m g r).leftPaddle = g.leftPaddle := by
  unfold scoreRight; split_ifs <;> rfl

@[simp] lemma scoreRight_rightPaddle (m : MathOps F) (g : Game F) (r : F) :
    (scoreRight m g r).rightPaddle = g.rightPaddle := by
  unfold scoreRight; split_ifs <;> rfl

@[simp] lemma scoreRight_leftScore (m : MathOps F) (g : Game F) (r : F) :
    (scoreRight m g r).leftScore = g.leftScore := by
  unfold scoreRight; split_ifs <;> rfl

@[simp] lemma scoreRight_paused (m : MathOps F) (g : Game F) (r : F) :
    (scoreRight m g r).paused = g.paused := by
  unfold scoreRight; split_ifs <;> rfl

@[simp] lemma scoreLeft_leftPaddle (m : MathOps F) (g : Game F) (r : F) :
    (scoreLeft m g r).leftPaddle = g.leftPaddle := by
  unfold scoreLeft; split_ifs <;> rfl

@[simp] lemma scoreLeft_rightPaddle (m : MathOps F) (g : Game F) (r : F) :
    (scoreLeft m g r).rightPaddle = g.rightPaddle := by
  unfold scoreLeft; split_ifs <;> rfl

@[simp] lemma scoreLeft_rightScore (m : MathOps F) (g : Game F) (r : F) :
    (scoreLeft m g r).rightScore = g.rightScore := by
  unfold scoreLeft; split_ifs <;> rfl

@[simp] lemma scoreLeft_paused (m : MathOps F) (g : Game F) (r : F) :
    (scoreLeft m g r).paused = g.paused := by
  unfold scoreLeft; split_ifs <;> rfl

@[simp] lemma scoring_leftPaddle (m : MathOps F) (g : Game F) (r₁ r₂ : F) :
    (scoring m g r₁ r₂).leftPaddle = g.leftPaddle := by
  unfold scoring; split_ifs <;> simp

@[simp] lemma scoring_rightPaddle (m : MathOps F) (g : Game F) (r₁ r₂ : F) :
    (scoring m g r₁ r₂).rightPaddle = g.rightPaddle := by
  unfold scoring; split_ifs <;> simp

@[simp] lemma scoring_paused (m : MathOps F) (g : Game F) (r₁ r₂ : F) :
    (scoring m g r₁ r₂).paused = g.paused := by
  unfold scoring; split_ifs <;> simp


@[simp] lemma movePaddles_leftPaddle_x (g : Game F) (inp : Input) :
    (movePaddles g inp).leftPaddle.x = g.leftPaddle.x := by
  unfold movePaddles; simp only []; split_ifs <;> rfl

@[simp] lemma movePaddles_rightPaddle_x (g : Game F) (inp : Input) :
    (movePaddles g inp).rightPaddle.x = g.rightPaddle.x := by
  unfold movePaddles; simp only []; split_ifs <;> rfl

@[simp] lemma clampPaddles_leftPaddle_x (g : Game F) :
    (clampPaddles g).leftPaddle.x = g.leftPaddle.x := by
  unfold clampPaddles; simp only []; split_ifs <;> rfl

@[simp] lemma clampPaddles_rightPaddle_x (g : Game F) :
    (clampPaddles g).rightPaddle.x = g.rightPaddle.x := by
  unfold clampPaddles; simp only []; split_ifs <;> rfl

@[simp] lemma wallCollision_ball_x (g : Game F) : (wallCollision g).ball.x = g.ball.x := by
  unfold wallCollision; simp only []; split_ifs <;> rfl

@[simp] lemma wallCollision_ball_vx (g : Game F) : (wallCollision g).ball.vx = g.ball.vx := by
  unfold wallCollision; simp only []; split_ifs <;> rfl

lemma wallCollision_ball_vy (g : Game F) :
    (wallCollision g).ball.vy = g.ball.vy ∨ (wallCollision g).ball.vy = -g.ball.vy := by
  unfold wallCollision; simp only []; split_ifs <;> simp

@[simp] lemma beforePaddles_leftPaddle (g : Game F) (inp : Input) :
    (beforePaddles g inp).leftPaddle = (clampPaddles (movePaddles g inp)).leftPaddle := by
  simp [beforePaddles]

@[simp] lemma beforePaddles_rightPaddle (g : Game F) (inp : Input) :
    (beforePaddles g inp).rightPaddle = (clampPaddles (movePaddles g inp)).rightPaddle := by
  simp [beforePaddles]

@[simp] lemma beforePaddles_leftScore (g : Game F) (inp : Input) :
    (beforePaddles g inp).leftScore = g.leftScore := by
  simp [beforePaddles]

@[simp] lemma beforePaddles_rightScore (g : Game F) (inp : Input) :
    (beforePaddles g inp).rightScore = g.rightScore := by
  simp [beforePaddles]

@[simp] lemma beforePaddles_paused (g : Game F) (inp : Input) :
    (beforePaddles g inp).paused = g.paused := by
  simp [beforePaddles]

@[simp] lemma beforePaddles_ball_x (g : Game F) (inp : Input) :
    (beforePaddles g inp).ball.x = g.ball.x + g.ball.vx := by
  simp [beforePaddles, moveBall]

@[simp] lemma beforePaddles_ball_vx (g : Game F) (inp : Input) :
    (beforePaddles g inp).ball.vx = g.ball.vx := by
  simp [beforePaddles, moveBall]

@[simp] lemma beforeScoring_leftPaddle (m : MathOps F) (g : Game F) (inp : Input) :
    (beforeScoring m g inp).leftPaddle = (clampPaddles (movePaddles g inp)).leftPaddle := by
  simp [beforeScoring]

@[simp] lemma beforeScoring_rightPaddle (m : MathOps F) (g : Game F) (inp : Input) :
    (beforeScoring m g inp).rightPaddle = (clampPaddles (movePaddles g inp)).rightPaddle := by
  simp [beforeScoring]

@[simp] lemma beforeScoring_leftScore (m : MathOps F) (g : Game F) (inp : Input) :
    (beforeScoring m g inp).leftScore = g.leftScore := by
  simp [beforeScoring]

@[simp] lemma beforeScoring_rightScore (m : MathOps F) (g : Game F) (inp : Input) :
    (beforeScoring m g inp).rightScore = g.rightScore := by
  simp [beforeScoring]

@[simp] lemma beforeScoring_paused (m : MathOps F) (g : Game F) (inp : Input) :
    (beforeScoring m g inp).paused = g.paused := by
  simp [beforeScoring]

end Frame

/-! ## C1: the paddles stay inside the arena -/

section PaddleInv
variable {F : Type} [LinearOrderedField F]

lemma clampPaddles_inRange (g : Game F) : paddlesInRange (clampPaddles g) := by
  have h980 : (0 : F) ≤ ((ScreenHeight - PaddleHeight : Int) : F) := by
    rw [paddleMax_eq]; norm_num
  unfold paddlesInRange clampPaddles
  simp only []
  split_ifs <;> simp_all

lemma physics_leftPaddle (m : MathOps F) (g : Game F) (inp : Input) (r₁ r₂ : F) :
    (physics m g inp r₁ r₂).leftPaddle = (clampPaddles (movePaddles g inp)).leftPaddle := by
  simp [physics]

lemma physics_rightPaddle (m : MathOps F) (g : Game F) (inp : Input) (r₁ r₂ : F) :
    (physics m g inp r₁ r₂).rightPaddle = (clampPaddles (movePaddles g inp)).rightPaddle := by
  simp [physics]

lemma physics_inRange (m : MathOps F) (g : Game F) (inp : Input) (r₁ r₂ : F) :
    paddlesInRange (physics m g inp r₁ r₂) := by
  have h := clampPaddles_inRange (movePaddles g inp)
  unfold paddlesInRange at h ⊢
  rw [physics_leftPaddle, physics_rightPaddle]
  exact h

lemma Update_inRange (m : MathOps F) (g : Game F) (inp : Input) (r₁ r₂ : F)
    (h : paddlesInRange g) : paddlesInRange (Update m g inp r₁ r₂) := by
  unfold Update
  simp only []
  split_ifs
  · unfold paddlesInRange at h ⊢
    simpa using h
  · exact physics_inRange m _ inp r₁ r₂

lemma NewGame_inRange (m : MathOps F) (r : F) : paddlesInRange (NewGame m r) := by
  unfold paddlesInRange NewGame
  simp only [resetBall_leftPaddle, resetBall_rightPaddle, startY_eq, paddleMax_eq]
  norm_num

lemma run_inRange (m : MathOps F) (fs : List (Frame F)) (g : Game F)
    (h : paddlesInRange g) : paddlesInRange (run m g fs) := by
  induction fs generalizing g with
  | nil => simpa [run] using h
  | cons f fs ih =>
    simp only [run, List.foldl_cons]
    exact ih _ (Update_inRange m g f.inp f.r₁ f.r₂ h)

/-- C1. Paddle clamping invariant: in every state reached from `NewGame` (paddles at
y = 490) by any finite sequence of `Update` steps, whatever the keys and random draws,
both paddles satisfy `0 ≤ y ≤ ScreenHeight - PaddleHeight = 980`. -/
theorem paddle_clamping_invariant (m : MathOps F) (r₀ : F) (fs : List (Frame F)) :
    (NewGame m r₀).leftPaddle.y = 490 ∧ (NewGame m r₀).rightPaddle.y = 490 ∧
    (0 ≤ (run m (NewGame m r₀) fs).leftPaddle.y ∧
      (run m (NewGame m r₀) fs).leftPaddle.y ≤ 980) ∧
    (0 ≤ (run m (NewGame m r₀) fs).rightPaddle.y ∧
      (run m (NewGame m r₀) fs).rightPaddle.y ≤ 980) := by
  have h := run_inRange m fs (NewGame m r₀) (NewGame_inRange m r₀)
  unfold paddlesInRange at h
  rw [paddleMax_eq] at h
  refine ⟨?_, ?_, h.1, h.2⟩
  · simp [NewGame, startY_eq]
  · simp [NewGame, startY_eq]
end PaddleInv

/-! ## The paddle branches -/

section Geometry
variable {F : Type} [LinearOrderedField F]

lemma leftCollision_of_hit (m : MathOps F) (g : Game F) (h : leftHit g) :
    (leftCollision m g).ball =
      { x := g.leftPaddle.x + (PaddleWidth : F) + 1 / 10
        y := g.ball.y
        vx := |m.Hypot g.ball.vx g.ball.vy * m.Cos (bounceAngle m g.leftPaddle.y g.ball.y)|
        vy := m.Hypot g.ball.vx g.ball.vy * m.Sin (bounceAngle m g.leftPaddle.y g.ball.y) } := by
  unfold leftCollision; rw [if_pos h]

lemma leftCollision_of_not_hit (m : MathOps F) (g : Game F) (h : ¬ leftHit g) :
    leftCollision m g = g := by
  unfold leftCollision; rw [if_neg h]

lemma rightCollision_of_hit (m : MathOps F) (g : Game F) (h : rightHit g) :
    (rightCollision m g).ball =
      { x := g.rightPaddle.x - (BallSize : F) - 1 / 10
        y := g.ball.y
        vx := -|m.Hypot g.ball.vx g.ball.vy * m.Cos (bounceAngle m g.rightPaddle.y g.ball.y)|
        vy := m.Hypot g.ball.vx g.ball.vy * m.Sin (bounceAngle m g.rightPaddle.y g.ball.y) } := by
  unfold rightCollision; rw [if_pos h]

lemma rightCollision_of_not_hit (m : MathOps F) (g : Game F) (h : ¬ rightHit g) :
    rightCollision m g = g := by
  unfold rightCollision; rw [if_neg h]

/-- With the ball inside `[-BallSize, ScreenWidth + BallSize]` neither scoring test
succeeds. -/
lemma scoring_of_inside (m : MathOps F) (g : Game F) (r₁ r₂ : F)
    (h₁ : -10 ≤ g.ball.x) (h₂ : g.ball.x ≤ 1930) : scoring m g r₁ r₂ = g := by
  have e₁ : ¬ g.ball.x < ((-BallSize : Int) : F) := by rw [negBall_eq]; exact not_lt.mpr h₁
  have e₂ : ¬ g.ball.x > ((ScreenWidth + BallSize : Int) : F) := by
    rw [rightEdge_eq]; exact not_lt.mpr h₂
  unfold scoring scoreLeft
  rw [if_neg e₁, if_neg e₂]

/-- An unpaused step is the physics applied to the state with the flag toggled. -/
lemma Update_of_unpaused (m : MathOps F) (g : Game F) (inp : Input) (r₁ r₂ : F)
    (h : unpausedStep g inp) :
    Update m g inp r₁ r₂ = physics m (togglePause g inp) inp r₁ r₂ := by
  unfold unpausedStep at h
  unfold Update
  simp [h]

/-- After the left branch the ball sits at x = 32.1, out of reach of the right paddle
and of both scoring tests. -/
lemma beforeScoring_of_leftHit (m : MathOps F) (g : Game F) (inp : Input)
    (hl : g.leftPaddle.x = 20) (hr : g.rightPaddle.x = 1888)
    (h : leftHit (beforePaddles g inp)) :
    (beforeScoring m g inp).ball =
      (leftCollision m (beforePaddles g inp)).ball ∧
    (beforeScoring m g inp).ball.x = 321 / 10 := by
  have hx : (leftCollision m (beforePaddles g inp)).ball.x = 321 / 10 := by
    rw [leftCollision_of_hit m _ h]
    simp only [beforePaddles_leftPaddle, clampPaddles_leftPaddle_x, movePaddles_leftPaddle_x, hl,
      paddleWidth_eq]
    norm_num
  have hn : ¬ rightHit (leftCollision m (beforePaddles g inp)) := by
    intro hh
    have := hh.1
    rw [hx] at this
    simp only [leftCollision_rightPaddle, beforePaddles_rightPaddle, clampPaddles_rightPaddle_x,
      movePaddles_rightPaddle_x, hr, ballSize_eq] at this
    norm_num at this
  unfold beforeScoring
  rw [rightCollision_of_not_hit m _ hn]
  exact ⟨rfl, hx⟩

lemma beforeScoring_of_rightHit (m : MathOps F) (g : Game F) (inp : Input)
    (hr : g.rightPaddle.x = 1888)
    (h : rightHit (leftCollision m (beforePaddles g inp))) :
    (beforeScoring m g inp).ball.x = 18779 / 10 := by
  unfold beforeScoring
  rw [rightCollision_of_hit m _ h]
  simp only [leftCollision_rightPaddle, beforePaddles_rightPaddle, clampPaddles_rightPaddle_x,
    movePaddles_rightPaddle_x, hr, ballSize_eq]
  norm_num

end Geometry

/-! ## The speed of the ball over the reals -/

section RealSpeed
variable {F : Type} [LinearOrderedField F]

lemma hypot_nonneg (p q : ℝ) : 0 ≤ realMath.Hypot p q := Real.sqrt_nonneg _

lemma hypot_neg_right (p q : ℝ) : realMath.Hypot p (-q) = realMath.Hypot p q := by
  simp [realMath]

/-- A velocity of polar form `(± |s cos a|, s sin a)` with `s ≥ 0` has speed `s`. -/
lemma hypot_polar (s a : ℝ) (hs : 0 ≤ s) :
    realMath.Hypot |s * Real.cos a| (s * Real.sin a) = s := by
  have h : |s * Real.cos a| ^ 2 + (s * Real.sin a) ^ 2 = s ^ 2 := by
    rw [sq_abs]
    have := Real.sin_sq_add_cos_sq a
    nlinarith [this]
  show Real.sqrt (|s * Real.cos a| ^ 2 + (s * Real.sin a) ^ 2) = s
  rw [h, Real.sqrt_sq hs]

lemma hypot_polar_neg (s a : ℝ) (hs : 0 ≤ s) :
    realMath.Hypot (-|s * Real.cos a|) (s * Real.sin a) = s := by
  have h : (-|s * Real.cos a|) ^ 2 + (s * Real.sin a) ^ 2 = s ^ 2 := by
    rw [neg_sq, sq_abs]
    have := Real.sin_sq_add_cos_sq a
    nlinarith [this]
  show Real.sqrt ((-|s * Real.cos a|) ^ 2 + (s * Real.sin a) ^ 2) = s
  rw [h, Real.sqrt_sq hs]

lemma wallCollision_speed (g : Game ℝ) :
    realMath.Hypot (wallCollision g).ball.vx (wallCollision g).ball.vy =
      realMath.Hypot g.ball.vx g.ball.vy := by
  rw [wallCollision_ball_vx]
  rcases wallCollision_ball_vy g with h | h <;> rw [h]
  exact hypot_neg_right _ _

lemma leftCollision_speed (g : Game ℝ) :
    realMath.Hypot (leftCollision realMath g).ball.vx (leftCollision realMath g).ball.vy =
      realMath.Hypot g.ball.vx g.ball.vy := by
  by_cases h : leftHit g
  · rw [leftCollision_of_hit realMath g h]
    exact hypot_polar _ _ (hypot_nonneg _ _)
  · rw [leftCollision_of_not_hit realMath g h]

lemma rightCollision_speed (g : Game ℝ) :
    realMath.Hypot (rightCollision realMath g).ball.vx (rightCollision realMath g).ball.vy =
      realMath.Hypot g.ball.vx g.ball.vy := by
  by_cases h : rightHit g
  · rw [rightCollision_of_hit realMath g h]
    exact hypot_polar_neg _ _ (hypot_nonneg _ _)
  · rw [rightCollision_of_not_hit realMath g h]

/-- Lines 106-185 never change the speed of the ball. -/
lemma beforeScoring_speed (g : Game ℝ) (inp : Input) :
    realMath.Hypot (beforeScoring realMath g inp).ball.vx
        (beforeScoring realMath g inp).ball.vy =
      realMath.Hypot g.ball.vx g.ball.vy := by
  unfold beforeScoring beforePaddles
  rw [rightCollision_speed, leftCollision_speed, wallCollision_speed]
  simp [moveBall]

/-- When a paddle branch fires (paddles at x = 20 and x = 1888) no point is scored
in that step. -/
lemma physics_of_fires (m : MathOps F) (g : Game F) (inp : Input) (r₁ r₂ : F)
    (hl : g.leftPaddle.x = 20) (hr : g.rightPaddle.x = 1888)
    (h : leftHit (beforePaddles g inp) ∨
      rightHit (leftCollision m (beforePaddles g inp))) :
    physics m g inp r₁ r₂ = beforeScoring m g inp := by
  unfold physics
  rcases h with h | h
  · have hx := (beforeScoring_of_leftHit m g inp hl hr h).2
    apply scoring_of_inside <;> rw [hx] <;> norm_num
  · have hx := beforeScoring_of_rightHit m g inp hr h
    apply scoring_of_inside <;> rw [hx] <;> norm_num

end RealSpeed

section BeforePaddles
variable {F : Type} [LinearOrderedField F]

lemma beforePaddles_speed (g : Game ℝ) (inp : Input) :
    realMath.Hypot (beforePaddles g inp).ball.vx (beforePaddles g inp).ball.vy =
      realMath.Hypot g.ball.vx g.ball.vy := by
  unfold beforePaddles
  rw [wallCollision_speed]
  simp [moveBall]

/-- A paddle branch fires only with the ball centre at most 55 above or below the
paddle centre: the normalized offset lies in `[-1.1, 1.1]`. -/
lemma normalizedOffset_bound (py bally : F)
    (h₁ : bally + (BallSize : F) ≥ py) (h₂ : bally ≤ py + (PaddleHeight : F)) :
    -(11 / 10) ≤ normalizedOffset py bally ∧ normalizedOffset py bally ≤ 11 / 10 := by
  rw [ballSize_eq] at h₁
  rw [paddleHeight_eq] at h₂
  unfold normalizedOffset
  simp only [halfPaddle_eq, halfBall_eq]
  constructor
  · rw [le_div_iff₀ (by norm_num : (0 : F) < 50)]; linarith
  · rw [div_le_iff₀ (by norm_num : (0 : F) < 50)]; linarith

end BeforePaddles

section RealAngle

lemma hypot_pos (p q : ℝ) (h : p ≠ 0 ∨ q ≠ 0) : 0 < realMath.Hypot p q := by
  show 0 < Real.sqrt (p ^ 2 + q ^ 2)
  apply Real.sqrt_pos.mpr
  rcases h with h | h
  · have := sq_pos_of_ne_zero h
    nlinarith [sq_nonneg q]
  · have := sq_pos_of_ne_zero h
    nlinarith [sq_nonneg p]

/-- The bounce angle of a firing paddle branch is at most 82.5 degrees in absolute
value, so its cosine is positive. -/
lemma bounceAngle_cos_pos (py bally : ℝ)
    (h₁ : bally + (BallSize : ℝ) ≥ py) (h₂ : bally ≤ py + (PaddleHeight : ℝ)) :
    0 < Real.cos (bounceAngle realMath py bally) := by
  obtain ⟨hlo, hhi⟩ := normalizedOffset_bound py bally h₁ h₂
  have hpi := Real.pi_pos
  apply Real.cos_pos_of_mem_Ioo
  unfold bounceAngle MaxBounceAngle
  show -(Real.pi / 2) < normalizedOffset py bally * (75 * Real.pi / 180) ∧
    normalizedOffset py bally * (75 * Real.pi / 180) < Real.pi / 2
  constructor
  · nlinarith
  · nlinarith

end RealAngle

/-! ## C2 and C3: speed and direction after a paddle bounce -/

section PaddleBounce
variable {F : Type} [LinearOrderedField F]

lemma Update_of_leftFires (m : MathOps F) (g : Game F) (inp : Input) (r₁ r₂ : F)
    (hl : g.leftPaddle.x = 20) (hr : g.rightPaddle.x = 1888) (h : leftFires g inp) :
    (Update m g inp r₁ r₂).ball =
      (leftCollision m (beforePaddles (togglePause g inp) inp)).ball := by
  obtain ⟨hun, hit⟩ := h
  have hl' : (togglePause g inp).leftPaddle.x = 20 := by simpa using hl
  have hr' : (togglePause g inp).rightPaddle.x = 1888 := by simpa using hr
  rw [Update_of_unpaused m g inp r₁ r₂ hun,
    physics_of_fires m _ inp r₁ r₂ hl' hr' (Or.inl hit)]
  exact (beforeScoring_of_leftHit m _ inp hl' hr' hit).1

lemma Update_of_rightFires (m : MathOps F) (g : Game F) (inp : Input) (r₁ r₂ : F)
    (hl : g.leftPaddle.x = 20) (hr : g.rightPaddle.x = 1888) (h : rightFires m g inp) :
    (Update m g inp r₁ r₂).ball =
      (rightCollision m (leftCollision m (beforePaddles (togglePause g inp) inp))).ball := by
  obtain ⟨hun, hit⟩ := h
  have hl' : (togglePause g inp).leftPaddle.x = 20 := by simpa using hl
  have hr' : (togglePause g inp).rightPaddle.x = 1888 := by simpa using hr
  rw [Update_of_unpaused m g inp r₁ r₂ hun,
    physics_of_fires m _ inp r₁ r₂ hl' hr' (Or.inr hit)]
  rfl

/-- The ball at (25, 535) of the start position reaches the left paddle in the next
step, whatever its vertical speed in `[-1, 1]`. -/
lemma leftFires_start (vx vy : F) (h₁ : -5 ≤ vx) (h₂ : vx ≤ 7) (h₃ : -1 ≤ vy) (h₄ : vy ≤ 1) :
    leftFires (stateWithBall { x := 25, y := 535, vx := vx, vy := vy } : Game F) noKeys := by
  have e₁ : ¬ (535 + vy ≤ 0) := by intro h; linarith
  have e₂ : ¬ ((1080 : F) ≤ 535 + vy + 10) := by intro h; linarith
  refine ⟨rfl, ?_⟩
  simp only [leftHit, beforePaddles, wallCollision, moveBall, clampPaddles, movePaddles,
    togglePause, noKeys, stateWithBall, paddleMax_eq, ballSize_eq, paddleWidth_eq,
    screenHeight_eq, paddleHeight_eq, ballMax_eq]
  norm_num [e₁, e₂]
  refine ⟨by linarith, by linarith, by linarith, by linarith⟩

end PaddleBounce

section PaddleBounceReal

lemma Update_vx_of_leftFires (g : Game ℝ) (inp : Input) (r₁ r₂ : ℝ)
    (hl : g.leftPaddle.x = 20) (hr : g.rightPaddle.x = 1888) (h : leftFires g inp) :
    (Update realMath g inp r₁ r₂).ball.vx =
      |realMath.Hypot g.ball.vx g.ball.vy *
        Real.cos (bounceAngle realMath (beforePaddles (togglePause g inp) inp).leftPaddle.y
          (beforePaddles (togglePause g inp) inp).ball.y)| := by
  rw [Update_of_leftFires realMath g inp r₁ r₂ hl hr h, leftCollision_of_hit realMath _ h.2]
  show |realMath.Hypot _ _ * Real.cos _| = _
  rw [beforePaddles_speed, togglePause_ball]

lemma Update_vx_of_rightFires (g : Game ℝ) (inp : Input) (r₁ r₂ : ℝ)
    (hl : g.leftPaddle.x = 20) (hr : g.rightPaddle.x = 1888) (h : rightFires realMath g inp) :
    (Update realMath g inp r₁ r₂).ball.vx =
      -|realMath.Hypot g.ball.vx g.ball.vy *
        Real.cos (bounceAngle realMath
          (leftCollision realMath (beforePaddles (togglePause g inp) inp)).rightPaddle.y
          (leftCollision realMath (beforePaddles (togglePause g inp) inp)).ball.y)| := by
  rw [Update_of_rightFires realMath g inp r₁ r₂ hl hr h, rightCollision_of_hit realMath _ h.2]
  show -|realMath.Hypot _ _ * Real.cos _| = _
  rw [leftCollision_speed, beforePaddles_speed, togglePause_ball]

/-- C2. Speed conservation on paddle bounce: with the paddles at x = 20 and x = 1888,
whenever the left-paddle or the right-paddle branch fires during an unpaused `Update`
step, `hypot(vx, vy)` of the ball after the step equals `hypot(vx, vy)` before the step
(exact real arithmetic). -/
theorem speed_conserved_on_paddle_bounce (g : Game ℝ) (inp : Input) (r₁ r₂ : ℝ)
    (hl : g.leftPaddle.x = 20) (hr : g.rightPaddle.x = 1888)
    (h : leftFires g inp ∨ rightFires realMath g inp) :
    realMath.Hypot (Update realMath g inp r₁ r₂).ball.vx (Update realMath g inp r₁ r₂).ball.vy =
      realMath.Hypot g.ball.vx g.ball.vy := by
  have hun : unpausedStep g inp := by
    rcases h with h | h <;> exact h.1
  have hit : leftHit (beforePaddles (togglePause g inp) inp) ∨
      rightHit (leftCollision realMath (beforePaddles (togglePause g inp) inp)) := by
    rcases h with h | h
    · exact Or.inl h.2
    · exact Or.inr h.2
  have hl' : (togglePause g inp).leftPaddle.x = 20 := by simpa using hl
  have hr' : (togglePause g inp).rightPaddle.x = 1888 := by simpa using hr
  rw [Update_of_unpaused realMath g inp r₁ r₂ hun,
    physics_of_fires realMath _ inp r₁ r₂ hl' hr' hit, beforeScoring_speed, togglePause_ball]

/-- Witness for C2: the ball at (25, 535) moving left with velocity (-4, 0) hits the left
paddle; its speed is the same after the step. -/
theorem speed_conserved_on_paddle_bounce_witness :
    leftFires (stateWithBall { x := 25, y := 535, vx := -4, vy := 0 } : Game ℝ) noKeys ∧
    realMath.Hypot
        (Update realMath (stateWithBall { x := 25, y := 535, vx := -4, vy := 0 }) noKeys 0 0).ball.vx
        (Update realMath (stateWithBall { x := 25, y := 535, vx := -4, vy := 0 }) noKeys 0 0).ball.vy =
      realMath.Hypot (-4) 0 :=
  ⟨leftFires_start (-4) 0 (by norm_num) (by norm_num) (by norm_num) (by norm_num),
    speed_conserved_on_paddle_bounce _ noKeys 0 0 rfl rfl
      (Or.inl (leftFires_start (-4) 0 (by norm_num) (by norm_num) (by norm_num) (by norm_num)))⟩

/-- C3, as stated, fails: a ball at rest inside the reach of the left paddle (position
(25, 535), velocity (0, 0), paddles at their game positions) makes the left-paddle branch
fire, and the horizontal velocity after the step is 0, not strictly positive. -/
theorem direction_on_paddle_bounce_counterexample :
    (stateWithBall { x := 25, y := 535, vx := 0, vy := 0 } : Game ℝ).leftPaddle.x = 20 ∧
    (stateWithBall { x := 25, y := 535, vx := 0, vy := 0 } : Game ℝ).rightPaddle.x = 1888 ∧
    leftFires (stateWithBall { x := 25, y := 535, vx := 0, vy := 0 } : Game ℝ) noKeys ∧
    ¬ 0 < (Update realMath (stateWithBall { x := 25, y := 535, vx := 0, vy := 0 })
      noKeys 0 0).ball.vx := by
  have hf := leftFires_start (F := ℝ) 0 0 (by norm_num) (by norm_num) (by norm_num) (by norm_num)
  refine ⟨rfl, rfl, hf, ?_⟩
  rw [Update_vx_of_leftFires _ noKeys 0 0 rfl rfl hf]
  simp [realMath, stateWithBall]

/-- C3, amended. Direction on paddle bounce: with the paddles at x = 20 and x = 1888, if
the left-paddle branch fires during an unpaused `Update` step then vx after the step is
never negative, and if the right-paddle branch fires it is never positive; in exact real
arithmetic (float64 rounding and underflow set aside) and for a ball whose velocity before
the step is not (0, 0), vx is strictly positive after a left-paddle collision and
strictly negative after a right-paddle collision. -/
theorem direction_on_paddle_bounce (g : Game ℝ) (inp : Input) (r₁ r₂ : ℝ)
    (hl : g.leftPaddle.x = 20) (hr : g.rightPaddle.x = 1888) :
    (leftFires g inp →
      ¬ (Update realMath g inp r₁ r₂).ball.vx < 0 ∧
      (g.ball.vx ≠ 0 ∨ g.ball.vy ≠ 0 → 0 < (Update realMath g inp r₁ r₂).ball.vx)) ∧
    (rightFires realMath g inp →
      ¬ 0 < (Update realMath g inp r₁ r₂).ball.vx ∧
      (g.ball.vx ≠ 0 ∨ g.ball.vy ≠ 0 → (Update realMath g inp r₁ r₂).ball.vx < 0)) := by
  constructor
  · intro h
    rw [Update_vx_of_leftFires g inp r₁ r₂ hl hr h]
    refine ⟨not_lt.mpr (abs_nonneg _), fun hv => ?_⟩
    have hs := hypot_pos g.ball.vx g.ball.vy hv
    have hc := bounceAngle_cos_pos _ _ h.2.2.2.1 h.2.2.2.2
    exact abs_pos.mpr (mul_pos hs hc).ne'
  · intro h
    rw [Update_vx_of_rightFires g inp r₁ r₂ hl hr h]
    refine ⟨not_lt.mpr (neg_nonpos.mpr (abs_nonneg _)), fun hv => ?_⟩
    have hs := hypot_pos g.ball.vx g.ball.vy hv
    have hc := bounceAngle_cos_pos _ _ h.2.2.2.1 h.2.2.2.2
    exact neg_neg_of_pos (abs_pos.mpr (mul_pos hs hc).ne')

/-- Witness for the amended C3: the ball at (25, 535) with velocity (-4, 0) hits the left
paddle and leaves it with vx > 0. -/
theorem direction_on_paddle_bounce_witness :
    leftFires (stateWithBall { x := 25, y := 535, vx := -4, vy := 0 } : Game ℝ) noKeys ∧
    0 < (Update realMath (stateWithBall { x := 25, y := 535, vx := -4, vy := 0 })
      noKeys 0 0).ball.vx :=
  ⟨leftFires_start (-4) 0 (by norm_num) (by norm_num) (by norm_num) (by norm_num),
    ((direction_on_paddle_bounce (stateWithBall { x := 25, y := 535, vx := -4, vy := 0 })
      noKeys 0 0 rfl rfl).1
      (leftFires_start (-4) 0 (by norm_num) (by norm_num) (by norm_num) (by norm_num))).2
      (Or.inl (by norm_num [stateWithBall]))⟩

end PaddleBounceReal

/-! ## C4: reflection at the top wall -/

section WallReflection
variable {F : Type} [LinearOrderedField F]

@[simp] lemma leftCollision_ball_y (m : MathOps F) (g : Game F) :
    (leftCollision m g).ball.y = g.ball.y := by
  unfold leftCollision; split_ifs <;> rfl

@[simp] lemma rightCollision_ball_y (m : MathOps F) (g : Game F) :
    (rightCollision m g).ball.y = g.ball.y := by
  unfold rightCollision; split_ifs <;> rfl

/-- A ball at or above the top edge that moves upwards is put back on the edge with
its vertical velocity negated; the bottom test does not fire. -/
lemma beforePaddles_ball_of_top (g : Game F) (inp : Input)
    (hy : g.ball.y ≤ 0) (hvy : g.ball.vy < 0) :
    (beforePaddles g inp).ball =
      { x := g.ball.x + g.ball.vx, y := 0, vx := g.ball.vx, vy := -g.ball.vy } := by
  have e₁ : g.ball.y + g.ball.vy ≤ 0 := by linarith
  unfold beforePaddles wallCollision
  simp only [moveBall, clampPaddles_ball, movePaddles_ball, e₁, if_true, ballSize_eq,
    screenHeight_eq, zero_add, ge_iff_le]
  rw [if_neg (by norm_num)]

/-- With the ball inside `[-BallSize, ScreenWidth + BallSize]` after collision handling,
an unpaused step ends in the state reached before the scoring tests. -/
lemma Update_of_no_score (m : MathOps F) (g : Game F) (inp : Input) (r₁ r₂ : F)
    (hun : unpausedStep g inp)
    (h₁ : -10 ≤ xBeforeScoring m g inp) (h₂ : xBeforeScoring m g inp ≤ 1930) :
    Update m g inp r₁ r₂ = beforeScoring m (togglePause g inp) inp := by
  rw [Update_of_unpaused m g inp r₁ r₂ hun]
  exact scoring_of_inside m _ r₁ r₂ h₁ h₂

/-- When neither paddle branch fires the paddle blocks change nothing. -/
lemma beforeScoring_of_no_fire (m : MathOps F) (g : Game F) (inp : Input)
    (hl : ¬ leftFires g inp) (hr : ¬ rightFires m g inp) (hun : unpausedStep g inp) :
    beforeScoring m (togglePause g inp) inp = beforePaddles (togglePause g inp) inp := by
  have h₁ : ¬ leftHit (beforePaddles (togglePause g inp) inp) := fun h => hl ⟨hun, h⟩
  have h₂ : ¬ rightHit (leftCollision m (beforePaddles (togglePause g inp) inp)) :=
    fun h => hr ⟨hun, h⟩
  unfold beforeScoring
  rw [rightCollision_of_not_hit m _ h₂, leftCollision_of_not_hit m _ h₁]

/-- With the paddles at x = 20 and x = 1888, a ball that ends its move left of x = 20
or right of x = 1890 touches no paddle. -/
lemma not_hit_of_miss (m : MathOps F) (g : Game F) (inp : Input)
    (hl : g.leftPaddle.x = 20) (hr : g.rightPaddle.x = 1888)
    (h : g.ball.x + g.ball.vx < 20 ∨ 1890 < g.ball.x + g.ball.vx) :
    ¬ leftHit (beforePaddles g inp) ∧ ¬ rightHit (leftCollision m (beforePaddles g inp)) := by
  have h₁ : ¬ leftHit (beforePaddles g inp) := by
    intro hh
    have a := hh.1
    have b := hh.2.1
    simp only [beforePaddles_ball_x, beforePaddles_leftPaddle, clampPaddles_leftPaddle_x,
      movePaddles_leftPaddle_x, hl, paddleWidth_eq] at a b
    rcases h with h | h <;> linarith
  refine ⟨h₁, ?_⟩
  rw [leftCollision_of_not_hit m _ h₁]
  intro hh
  have a := hh.1
  have b := hh.2.1
  simp only [beforePaddles_ball_x, beforePaddles_rightPaddle, clampPaddles_rightPaddle_x,
    movePaddles_rightPaddle_x, hr, paddleWidth_eq, ballSize_eq] at a b
  rcases h with h | h <;> linarith

lemma not_fires_of_miss (m : MathOps F) (g : Game F) (inp : Input)
    (hl : g.leftPaddle.x = 20) (hr : g.rightPaddle.x = 1888)
    (h : g.ball.x + g.ball.vx < 20 ∨ 1890 < g.ball.x + g.ball.vx) :
    ¬ leftFires g inp ∧ ¬ rightFires m g inp := by
  have hm := not_hit_of_miss m (togglePause g inp) inp (by simpa using hl) (by simpa using hr)
    (by simpa using h)
  exact ⟨fun hh => hm.1 hh.2, fun hh => hm.2 hh.2⟩

lemma xBeforeScoring_of_miss (m : MathOps F) (g : Game F) (inp : Input)
    (hl : g.leftPaddle.x = 20) (hr : g.rightPaddle.x = 1888)
    (h : g.ball.x + g.ball.vx < 20 ∨ 1890 < g.ball.x + g.ball.vx) :
    xBeforeScoring m g inp = g.ball.x + g.ball.vx := by
  have hm := not_hit_of_miss m (togglePause g inp) inp (by simpa using hl) (by simpa using hr)
    (by simpa using h)
  unfold xBeforeScoring beforeScoring
  rw [rightCollision_of_not_hit m _ hm.2, leftCollision_of_not_hit m _ hm.1]
  simp

lemma resetBall_ball_x (m : MathOps F) (g : Game F) (b : Bool) (r : F) :
    (resetBall m g b r).ball.x = 955 := by
  show ((ScreenWidth / 2 - BallSize / 2 : Int) : F) = 955
  exact centreX_eq

lemma resetBall_ball_y (m : MathOps F) (g : Game F) (b : Bool) (r : F) :
    (resetBall m g b r).ball.y = 535 := by
  show ((ScreenHeight / 2 - BallSize / 2 : Int) : F) = 535
  exact centreY_eq

lemma resetBall_ball_vx (m : MathOps F) (g : Game F) (b : Bool) (r : F) :
    (resetBall m g b r).ball.vx = if b then 4 else -4 := by
  cases b <;> simp [resetBall, InitialSpeedX]

lemma resetBall_ball_vy (m : MathOps F) (g : Game F) (b : Bool) (r : F) :
    (resetBall m g b r).ball.vy = 3 / 2 * m.Sin (serveAngle m r) := by
  simp [resetBall, InitialSpeedY]

/-- The first scoring test succeeds: the right player scores and the ball is served
with `resetBall(false)`, which consumes the first random draw. -/
lemma scoring_of_left_exit (m : MathOps F) (g : Game F) (r₁ r₂ : F) (h : g.ball.x < -10) :
    scoring m g r₁ r₂ =
      resetBall m { g with rightScore := wrapInt (g.rightScore + 1) } false r₁ := by
  have e₁ : g.ball.x < ((-BallSize : Int) : F) := by rw [negBall_eq]; exact h
  have e₂ : ¬ ((955 : F) > ((ScreenWidth + BallSize : Int) : F)) := by
    rw [rightEdge_eq]; norm_num
  unfold scoring
  rw [if_pos e₁]
  unfold scoreRight
  rw [if_pos e₁]
  unfold scoreLeft
  rw [if_neg]
  rw [resetBall_ball_x]
  exact e₂

/-- The second scoring test succeeds (and so the first one did not): the left player
scores and the ball is served with `resetBall(true)`. -/
lemma scoring_of_right_exit (m : MathOps F) (g : Game F) (r₁ r₂ : F) (h : 1930 < g.ball.x) :
    scoring m g r₁ r₂ =
      resetBall m { g with leftScore := wrapInt (g.leftScore + 1) } true r₁ := by
  have e₁ : ¬ g.ball.x < ((-BallSize : Int) : F) := by
    rw [negBall_eq]; intro hh; linarith
  have e₂ : g.ball.x > ((ScreenWidth + BallSize : Int) : F) := by
    rw [rightEdge_eq]; exact h
  unfold scoring
  rw [if_neg e₁]
  unfold scoreLeft
  rw [if_pos e₂]

end WallReflection

section WallReflectionClaims
variable {F : Type} [LinearOrderedField F]

/-- C4, amended. Wall reflection: for a ball with y <= 0 and vy < 0 before an unpaused
`Update` step in which no point is scored (the ball's x after integration and collision
handling lies in [-10, 1930]), the ball's y after the step is 0; if moreover no
paddle-collision branch fires in the step, vy after the step is the negation of the
pre-step vy, hence positive. -/
theorem wall_reflection (m : MathOps F) (g : Game F) (inp : Input) (r₁ r₂ : F)
    (hy : g.ball.y ≤ 0) (hvy : g.ball.vy < 0) (hun : unpausedStep g inp)
    (hs₁ : -10 ≤ xBeforeScoring m g inp) (hs₂ : xBeforeScoring m g inp ≤ 1930) :
    (Update m g inp r₁ r₂).ball.y = 0 ∧
    (¬ leftFires g inp → ¬ rightFires m g inp →
      (Update m g inp r₁ r₂).ball.vy = -g.ball.vy ∧ 0 < (Update m g inp r₁ r₂).ball.vy) := by
  have hb := beforePaddles_ball_of_top (togglePause g inp) inp
    (by simpa using hy) (by simpa using hvy)
  rw [Update_of_no_score m g inp r₁ r₂ hun hs₁ hs₂]
  constructor
  · unfold beforeScoring
    rw [rightCollision_ball_y, leftCollision_ball_y, hb]
  · intro hl hr
    rw [beforeScoring_of_no_fire m g inp hl hr hun, hb]
    simp only [togglePause_ball]
    exact ⟨trivial, by linarith⟩

/-- Witness for the amended C4, the end-to-end scenario of the spec: ball at (0, 0) with
velocity (-4, -1.5) ends the step with y = 0 and vy = +1.5. -/
theorem wall_reflection_witness :
    (Update realMath (stateWithBall { x := 0, y := 0, vx := -4, vy := -(3 / 2) })
      noKeys 0 0).ball.y = 0 ∧
    (Update realMath (stateWithBall { x := 0, y := 0, vx := -4, vy := -(3 / 2) })
      noKeys 0 0).ball.vy = 3 / 2 := by
  have hmiss : (stateWithBall { x := 0, y := 0, vx := -4, vy := -(3 / 2) } : Game ℝ).ball.x +
      (stateWithBall { x := 0, y := 0, vx := -4, vy := -(3 / 2) } : Game ℝ).ball.vx < 20 ∨
      1890 < (stateWithBall { x := 0, y := 0, vx := -4, vy := -(3 / 2) } : Game ℝ).ball.x +
        (stateWithBall { x := 0, y := 0, vx := -4, vy := -(3 / 2) } : Game ℝ).ball.vx :=
    Or.inl (by norm_num [stateWithBall])
  have hx := xBeforeScoring_of_miss realMath _ noKeys rfl rfl hmiss
  have hnf := not_fires_of_miss realMath _ noKeys rfl rfl hmiss
  have h := wall_reflection realMath
    (stateWithBall { x := 0, y := 0, vx := -4, vy := -(3 / 2) }) noKeys 0 0
    (by norm_num [stateWithBall]) (by norm_num [stateWithBall]) rfl
    (by rw [hx]; norm_num [stateWithBall]) (by rw [hx]; norm_num [stateWithBall])
  refine ⟨h.1, ?_⟩
  rw [(h.2 hnf.1 hnf.2).1]
  norm_num [stateWithBall]

end WallReflectionClaims

/-! ## C4 (counterexample), C5 and C6: scoring -/

section Scoring
variable {F : Type} [LinearOrderedField F]

lemma wrapInt_succ (n : Int) (h₁ : minInt ≤ n) (h₂ : n < maxInt) : wrapInt (n + 1) = n + 1 := by
  unfold wrapInt
  norm_num [intBits, minInt, maxInt] at *
  omega

lemma wrapInt_maxInt : wrapInt (maxInt + 1) = minInt := by
  norm_num [wrapInt, intBits, minInt, maxInt]

lemma Update_of_left_exit (m : MathOps F) (g : Game F) (inp : Input) (r₁ r₂ : F)
    (hun : unpausedStep g inp) (hx : xBeforeScoring m g inp < -10) :
    Update m g inp r₁ r₂ =
      resetBall m { beforeScoring m (togglePause g inp) inp with
        rightScore := wrapInt (g.rightScore + 1) } false r₁ := by
  rw [Update_of_unpaused m g inp r₁ r₂ hun]
  unfold physics
  rw [scoring_of_left_exit m _ r₁ r₂ hx]
  simp

lemma Update_of_right_exit (m : MathOps F) (g : Game F) (inp : Input) (r₁ r₂ : F)
    (hun : unpausedStep g inp) (hx : 1930 < xBeforeScoring m g inp) :
    Update m g inp r₁ r₂ =
      resetBall m { beforeScoring m (togglePause g inp) inp with
        leftScore := wrapInt (g.leftScore + 1) } true r₁ := by
  rw [Update_of_unpaused m g inp r₁ r₂ hun]
  unfold physics
  rw [scoring_of_right_exit m _ r₁ r₂ hx]
  simp

end Scoring

section ScoringClaims
variable {F : Type} [LinearOrderedField F]

/-- The left paddle at the top of the arena is reached by the ball at (25, 0) moving
with velocity (-4, -1.5). -/
lemma leftFires_top :
    leftFires (stateTopPaddle { x := 25, y := 0, vx := -4, vy := -(3 / 2) } : Game F) noKeys := by
  refine ⟨rfl, ?_⟩
  have hb := beforePaddles_ball_of_top
    (togglePause (stateTopPaddle { x := 25, y := 0, vx := -4, vy := -(3 / 2) } : Game F) noKeys)
    noKeys (by simp [stateTopPaddle]) (by simp [stateTopPaddle])
  unfold leftHit
  rw [hb]
  simp only [beforePaddles_leftPaddle, clampPaddles_leftPaddle_x, movePaddles_leftPaddle_x,
    ballSize_eq, paddleWidth_eq, paddleHeight_eq]
  simp only [clampPaddles, movePaddles, togglePause, noKeys, stateTopPaddle, paddleMax_eq]
  norm_num

end ScoringClaims

section ScoringClaimsReal

/-- C4, as stated, fails in two ways.  (a) Ball at (-20, 0) with velocity (-4, -1.5): it
leaves the arena in this step, the right player scores and the ball is reset to y = 535.
(b) Ball at (25, 0) with velocity (-4, -1.5) and the left paddle at y = 0: the wall test
flips vy to +1.5, then the left-paddle branch fires and overwrites vy with
`speed * sin(angle)` for an upward angle, which is not positive. -/
theorem wall_reflection_counterexample :
    ((stateWithBall { x := -20, y := 0, vx := -4, vy := -(3 / 2) } : Game ℝ).ball.y ≤ 0 ∧
      (stateWithBall { x := -20, y := 0, vx := -4, vy := -(3 / 2) } : Game ℝ).ball.vy < 0 ∧
      unpausedStep (stateWithBall { x := -20, y := 0, vx := -4, vy := -(3 / 2) } : Game ℝ)
        noKeys ∧
      (Update realMath (stateWithBall { x := -20, y := 0, vx := -4, vy := -(3 / 2) })
        noKeys 0 0).ball.y ≠ 0) ∧
    ((stateTopPaddle { x := 25, y := 0, vx := -4, vy := -(3 / 2) } : Game ℝ).ball.y ≤ 0 ∧
      (stateTopPaddle { x := 25, y := 0, vx := -4, vy := -(3 / 2) } : Game ℝ).ball.vy < 0 ∧
      unpausedStep (stateTopPaddle { x := 25, y := 0, vx := -4, vy := -(3 / 2) } : Game ℝ)
        noKeys ∧
      ¬ 0 < (Update realMath (stateTopPaddle { x := 25, y := 0, vx := -4, vy := -(3 / 2) })
        noKeys 0 0).ball.vy) := by
  constructor
  · refine ⟨by norm_num [stateWithBall], by norm_num [stateWithBall], rfl, ?_⟩
    have hx : xBeforeScoring realMath
        (stateWithBall { x := -20, y := 0, vx := -4, vy := -(3 / 2) } : Game ℝ) noKeys < -10 := by
      rw [xBeforeScoring_of_miss realMath _ noKeys rfl rfl (Or.inl (by norm_num [stateWithBall]))]
      norm_num [stateWithBall]
    rw [Update_of_left_exit realMath
      (stateWithBall { x := -20, y := 0, vx := -4, vy := -(3 / 2) }) noKeys 0 0 rfl hx,
      resetBall_ball_y]
    norm_num
  · refine ⟨by norm_num [stateTopPaddle], by norm_num [stateTopPaddle], rfl, ?_⟩
    have hf := leftFires_top (F := ℝ)
    have hb := beforePaddles_ball_of_top
      (togglePause (stateTopPaddle { x := 25, y := 0, vx := -4, vy := -(3 / 2) } : Game ℝ) noKeys)
      noKeys (by simp [stateTopPaddle]) (by simp [stateTopPaddle])
    rw [Update_of_leftFires realMath _ noKeys 0 0 rfl rfl hf, leftCollision_of_hit realMath _ hf.2]
    show ¬ 0 < realMath.Hypot _ _ * Real.sin _
    have hs := hypot_nonneg
      (beforePaddles (togglePause (stateTopPaddle
        { x := 25, y := 0, vx := -4, vy := -(3 / 2) } : Game ℝ) noKeys) noKeys).ball.vx
      (beforePaddles (togglePause (stateTopPaddle
        { x := 25, y := 0, vx := -4, vy := -(3 / 2) } : Game ℝ) noKeys) noKeys).ball.vy
    have hang : Real.sin (bounceAngle realMath
        (beforePaddles (togglePause (stateTopPaddle
          { x := 25, y := 0, vx := -4, vy := -(3 / 2) } : Game ℝ) noKeys) noKeys).leftPaddle.y
        (beforePaddles (togglePause (stateTopPaddle
          { x := 25, y := 0, vx := -4, vy := -(3 / 2) } : Game ℝ) noKeys) noKeys).ball.y) ≤ 0 := by
      rw [hb]
      have hp : (beforePaddles (togglePause (stateTopPaddle
          { x := 25, y := 0, vx := -4, vy := -(3 / 2) } : Game ℝ) noKeys) noKeys).leftPaddle.y
          = 0 := by
        simp only [beforePaddles_leftPaddle]
        simp only [clampPaddles, movePaddles, togglePause, noKeys, stateTopPaddle, paddleMax_eq]
        norm_num
      rw [hp]
      have hpi := Real.pi_pos
      apply Real.sin_nonpos_of_nonnpos_of_neg_pi_le
      · show normalizedOffset (0 : ℝ) 0 * (75 * Real.pi / 180) ≤ 0
        simp only [normalizedOffset, halfPaddle_eq, halfBall_eq]
        norm_num
        positivity
      · show -Real.pi ≤ normalizedOffset (0 : ℝ) 0 * (75 * Real.pi / 180)
        simp only [normalizedOffset, halfPaddle_eq, halfBall_eq]
        norm_num
        linarith
    exact not_lt.mpr (mul_nonpos_of_nonneg_of_nonpos hs hang)

end ScoringClaimsReal

section EdgeScoring
variable {F : Type} [LinearOrderedField F]

/-- C5, amended. Scoring on the left edge: in every unpaused `Update` step in which the
ball's x after integration and collision handling is less than -BallSize = -10,
rightScore becomes rightScore + 1 in 64-bit arithmetic (exactly one more unless it was
the largest `int`), leftScore is unchanged, the ball's x is reset to 955, and the ball is
re-served toward the LEFT: the new vx is -InitialSpeedX = -4 < 0. -/
theorem left_edge_scoring (m : MathOps F) (g : Game F) (inp : Input) (r₁ r₂ : F)
    (hun : unpausedStep g inp) (hx : xBeforeScoring m g inp < -10) :
    (Update m g inp r₁ r₂).rightScore = wrapInt (g.rightScore + 1) ∧
    (minInt ≤ g.rightScore → g.rightScore < maxInt →
      (Update m g inp r₁ r₂).rightScore = g.rightScore + 1) ∧
    (Update m g inp r₁ r₂).leftScore = g.leftScore ∧
    (Update m g inp r₁ r₂).ball.x = 955 ∧
    (Update m g inp r₁ r₂).ball.vx = -4 ∧
    (Update m g inp r₁ r₂).ball.vx < 0 := by
  rw [Update_of_left_exit m g inp r₁ r₂ hun hx]
  refine ⟨rfl, fun h₁ h₂ => wrapInt_succ _ h₁ h₂, by simp, resetBall_ball_x _ _ _ _, ?_, ?_⟩
  · rw [resetBall_ball_vx]; simp
  · rw [resetBall_ball_vx]; simp

/-- C6, amended. Scoring on the right edge: in every unpaused `Update` step in which the
ball's x after integration and collision handling is greater than
ScreenWidth + BallSize = 1930, leftScore becomes leftScore + 1 in 64-bit arithmetic
(exactly one more unless it was the largest `int`), rightScore is unchanged, and the ball
is reset with toRight = true: position (955, 535) and vx = +InitialSpeedX = 4 > 0. -/
theorem right_edge_scoring (m : MathOps F) (g : Game F) (inp : Input) (r₁ r₂ : F)
    (hun : unpausedStep g inp) (hx : 1930 < xBeforeScoring m g inp) :
    (Update m g inp r₁ r₂).leftScore = wrapInt (g.leftScore + 1) ∧
    (minInt ≤ g.leftScore → g.leftScore < maxInt →
      (Update m g inp r₁ r₂).leftScore = g.leftScore + 1) ∧
    (Update m g inp r₁ r₂).rightScore = g.rightScore ∧
    (Update m g inp r₁ r₂).ball.x = 955 ∧
    (Update m g inp r₁ r₂).ball.y = 535 ∧
    (Update m g inp r₁ r₂).ball.vx = 4 ∧
    0 < (Update m g inp r₁ r₂).ball.vx := by
  rw [Update_of_right_exit m g inp r₁ r₂ hun hx]
  refine ⟨rfl, fun h₁ h₂ => wrapInt_succ _ h₁ h₂, by simp, resetBall_ball_x _ _ _ _,
    resetBall_ball_y _ _ _ _, ?_, ?_⟩
  · rw [resetBall_ball_vx]; simp
  · rw [resetBall_ball_vx]; simp

end EdgeScoring

section EdgeScoringReal

/-- The ball at (-20, 535) with velocity (-4, 0) is past the left edge after its move. -/
lemma left_exit_start (rs : Int) :
    xBeforeScoring realMath
      (stateWithScores { x := -20, y := 535, vx := -4, vy := 0 } 0 rs : Game ℝ)
      noKeys < -10 := by
  rw [xBeforeScoring_of_miss realMath _ noKeys rfl rfl (Or.inl (by norm_num [stateWithScores]))]
  norm_num [stateWithScores]

/-- The ball at (1940, 535) with velocity (4, 0) is past the right edge after its move. -/
lemma right_exit_start (ls : Int) :
    1930 < xBeforeScoring realMath
      (stateWithScores { x := 1940, y := 535, vx := 4, vy := 0 } ls 0 : Game ℝ)
      noKeys := by
  rw [xBeforeScoring_of_miss realMath _ noKeys rfl rfl (Or.inr (by norm_num [stateWithScores]))]
  norm_num [stateWithScores]

/-- C5, as stated, fails.  (a) Ball at (-20, 535) with velocity (-4, 0): the step is
unpaused, the ball's x after the move is below -10, and the new vx is not positive (it
is -4: `resetBall(false)`).  (b) The same ball with rightScore = 2^63 - 1: the score
after the step is -2^63, not rightScore + 1. -/
theorem left_edge_scoring_counterexample :
    (unpausedStep (stateWithScores { x := -20, y := 535, vx := -4, vy := 0 } 0 0 : Game ℝ) noKeys ∧
      xBeforeScoring realMath
        (stateWithScores { x := -20, y := 535, vx := -4, vy := 0 } 0 0 : Game ℝ)
        noKeys < -10 ∧
      ¬ 0 < (Update realMath
        (stateWithScores { x := -20, y := 535, vx := -4, vy := 0 } 0 0)
        noKeys 0 0).ball.vx) ∧
    (Update realMath
        (stateWithScores { x := -20, y := 535, vx := -4, vy := 0 } 0 maxInt)
        noKeys 0 0).rightScore ≠ maxInt + 1 := by
  refine ⟨⟨rfl, left_exit_start 0, ?_⟩, ?_⟩
  · rw [Update_of_left_exit realMath
      (stateWithScores { x := -20, y := 535, vx := -4, vy := 0 } 0 0 : Game ℝ)
      noKeys 0 0 rfl (left_exit_start 0), resetBall_ball_vx]
    norm_num
  · rw [Update_of_left_exit realMath
      (stateWithScores { x := -20, y := 535, vx := -4, vy := 0 } 0 maxInt : Game ℝ)
      noKeys 0 0 rfl (left_exit_start maxInt)]
    show wrapInt (maxInt + 1) ≠ maxInt + 1
    rw [wrapInt_maxInt]
    norm_num [minInt, maxInt, intBits]

/-- Witness for the amended C5: ball at (-20, 535) with velocity (-4, 0), score 0-0. -/
theorem left_edge_scoring_witness :
    (Update realMath
      (stateWithScores { x := -20, y := 535, vx := -4, vy := 0 } 0 0)
      noKeys 0 0).rightScore = 1 ∧
    (Update realMath
      (stateWithScores { x := -20, y := 535, vx := -4, vy := 0 } 0 0)
      noKeys 0 0).ball.vx = -4 :=
  ⟨(left_edge_scoring realMath
      (stateWithScores { x := -20, y := 535, vx := -4, vy := 0 } 0 0)
      noKeys 0 0 rfl (left_exit_start 0)).2.1 (by decide) (by decide),
    (left_edge_scoring realMath
      (stateWithScores { x := -20, y := 535, vx := -4, vy := 0 } 0 0)
      noKeys 0 0 rfl (left_exit_start 0)).2.2.2.2.1⟩

/-- C6, as stated, fails: with leftScore = 2^63 - 1 (the largest `int`) and the ball at
(1940, 535) with velocity (4, 0), the step is unpaused, the ball's x after the move is
above 1930, and leftScore after the step is -2^63, not leftScore + 1. -/
theorem right_edge_scoring_counterexample :
    unpausedStep
      (stateWithScores { x := 1940, y := 535, vx := 4, vy := 0 } maxInt 0 : Game ℝ) noKeys ∧
    1930 < xBeforeScoring realMath
      (stateWithScores { x := 1940, y := 535, vx := 4, vy := 0 } maxInt 0 : Game ℝ) noKeys ∧
    (Update realMath
      (stateWithScores { x := 1940, y := 535, vx := 4, vy := 0 } maxInt 0)
      noKeys 0 0).leftScore = minInt ∧
    (Update realMath
      (stateWithScores { x := 1940, y := 535, vx := 4, vy := 0 } maxInt 0)
      noKeys 0 0).leftScore ≠ maxInt + 1 := by
  have h : (Update realMath
      (stateWithScores { x := 1940, y := 535, vx := 4, vy := 0 } maxInt 0)
      noKeys 0 0).leftScore = minInt := by
    rw [Update_of_right_exit realMath
      (stateWithScores { x := 1940, y := 535, vx := 4, vy := 0 } maxInt 0 : Game ℝ)
      noKeys 0 0 rfl (right_exit_start maxInt)]
    exact wrapInt_maxInt
  refine ⟨rfl, right_exit_start maxInt, h, ?_⟩
  rw [h]
  norm_num [minInt, maxInt, intBits]

/-- Witness for the amended C6: ball at (1940, 535) with velocity (4, 0), score 0-0. -/
theorem right_edge_scoring_witness :
    (Update realMath
      (stateWithScores { x := 1940, y := 535, vx := 4, vy := 0 } 0 0)
      noKeys 0 0).leftScore = 1 ∧
    (Update realMath
      (stateWithScores { x := 1940, y := 535, vx := 4, vy := 0 } 0 0)
      noKeys 0 0).ball.vx = 4 :=
  ⟨(right_edge_scoring realMath
      (stateWithScores { x := 1940, y := 535, vx := 4, vy := 0 } 0 0)
      noKeys 0 0 rfl (right_exit_start 0)).2.1 (by decide) (by decide),
    (right_edge_scoring realMath
      (stateWithScores { x := 1940, y := 535, vx := 4, vy := 0 } 0 0)
      noKeys 0 0 rfl (right_exit_start 0)).2.2.2.2.2.1⟩

end EdgeScoringReal

/-! ## C7 and C10: the pause flag -/

section PauseFlag
variable {F : Type}

end PauseFlag

section Pause
variable {F : Type} [LinearOrderedField F]

/-- The paused early return: when the flag is set after the toggle, `Update` returns
right after lines 96-100. -/
lemma Update_of_paused (m : MathOps F) (g : Game F) (inp : Input) (r₁ r₂ : F)
    (h : (togglePause g inp).paused = true) : Update m g inp r₁ r₂ = togglePause g inp := by
  unfold Update
  simp [h]

lemma Update_of_paused_no_space (m : MathOps F) (g : Game F) (inp : Input) (r₁ r₂ : F)
    (hp : g.paused = true) (hk : inp.keySpace = false) : Update m g inp r₁ r₂ = g := by
  have ht : togglePause g inp = g := by simp [togglePause, hk]
  rw [Update_of_paused m g inp r₁ r₂ (by rw [ht]; exact hp), ht]

/-- C7, amended. Pause freeze: for every state whose pause flag is set and every input
snapshot in which the pause key is NOT held (any combination of the four movement keys),
one `Update` step leaves the whole state unchanged: ball, paddles, scores and the flag;
hence the same holds for any sequence of such steps started from a paused state. -/
theorem pause_freeze (m : MathOps F) (g : Game F) (hp : g.paused = true) :
    (∀ (inp : Input) (r₁ r₂ : F), inp.keySpace = false → Update m g inp r₁ r₂ = g) ∧
    (∀ fs : List (Frame F), (∀ f ∈ fs, f.inp.keySpace = false) → run m g fs = g) := by
  refine ⟨fun inp r₁ r₂ hk => Update_of_paused_no_space m g inp r₁ r₂ hp hk, ?_⟩
  intro fs
  induction fs with
  | nil => intro _; rfl
  | cons f fs ih =>
    intro h
    have hf : f.inp.keySpace = false := h f (List.mem_cons_self _ _)
    simp only [run, List.foldl_cons]
    rw [Update_of_paused_no_space m g f.inp f.r₁ f.r₂ hp hf]
    exact ih (fun f' hf' => h f' (List.mem_cons_of_mem _ hf'))

end Pause

section PauseReal

/-- C7, as stated, fails: from the paused state with the ball at (0, 535), velocity
(4, 0), a step with the pause key held clears the flag and runs the physics of that same
step, so the ball's x after the step is 4, not 0. -/
theorem pause_freeze_counterexample :
    (pausedStateWithBall { x := 0, y := 535, vx := 4, vy := 0 } : Game ℝ).paused = true ∧
    (Update realMath (pausedStateWithBall { x := 0, y := 535, vx := 4, vy := 0 })
      spaceOnly 0 0).ball.x = 4 ∧
    (Update realMath (pausedStateWithBall { x := 0, y := 535, vx := 4, vy := 0 })
      spaceOnly 0 0).ball.x ≠
      (pausedStateWithBall { x := 0, y := 535, vx := 4, vy := 0 } : Game ℝ).ball.x := by
  have hx := xBeforeScoring_of_miss realMath
    (pausedStateWithBall { x := 0, y := 535, vx := 4, vy := 0 } : Game ℝ) spaceOnly rfl rfl
    (Or.inl (by norm_num [pausedStateWithBall]))
  have hx' : xBeforeScoring realMath
      (pausedStateWithBall { x := 0, y := 535, vx := 4, vy := 0 } : Game ℝ) spaceOnly = 4 := by
    rw [hx]; norm_num [pausedStateWithBall]
  have h : (Update realMath (pausedStateWithBall { x := 0, y := 535, vx := 4, vy := 0 })
      spaceOnly 0 0).ball.x = 4 := by
    rw [Update_of_no_score realMath
      (pausedStateWithBall { x := 0, y := 535, vx := 4, vy := 0 }) spaceOnly 0 0 rfl
      (by rw [hx']; norm_num)
      (by rw [hx']; norm_num)]
    exact hx'
  refine ⟨rfl, h, ?_⟩
  rw [h]
  norm_num [pausedStateWithBall]

/-- Witness for the amended C7: a paused state and a step with all four movement keys
held. -/
theorem pause_freeze_witness :
    Update realMath (pausedStateWithBall { x := 0, y := 535, vx := 4, vy := 0 } : Game ℝ)
      { keySpace := false, keyW := true, keyS := true, keyArrowUp := true, keyArrowDown := true }
      0 0 = (pausedStateWithBall { x := 0, y := 535, vx := 4, vy := 0 } : Game ℝ) :=
  (pause_freeze realMath (pausedStateWithBall { x := 0, y := 535, vx := 4, vy := 0 }) rfl).1
    { keySpace := false, keyW := true, keyS := true, keyArrowUp := true, keyArrowDown := true }
    0 0 rfl

end PauseReal

/-! ## C8: score bookkeeping -/

section Scores
variable {F : Type} [LinearOrderedField F]

/-- The three ways a step can treat the scores: leave both alone, or take exactly one of
the two scoring branches. -/
lemma Update_score_cases (m : MathOps F) (g : Game F) (inp : Input) (r₁ r₂ : F) :
    ((Update m g inp r₁ r₂).leftScore = g.leftScore ∧
      (Update m g inp r₁ r₂).rightScore = g.rightScore) ∨
    (unpausedStep g inp ∧ xBeforeScoring m g inp < -10 ∧
      (Update m g inp r₁ r₂).leftScore = g.leftScore ∧
      (Update m g inp r₁ r₂).rightScore = wrapInt (g.rightScore + 1)) ∨
    (unpausedStep g inp ∧ 1930 < xBeforeScoring m g inp ∧
      (Update m g inp r₁ r₂).leftScore = wrapInt (g.leftScore + 1) ∧
      (Update m g inp r₁ r₂).rightScore = g.rightScore) := by
  cases hp : (togglePause g inp).paused
  · have hun : unpausedStep g inp := hp
    rcases lt_or_le (xBeforeScoring m g inp) (-10) with h₁ | h₁
    · right; left
      refine ⟨hun, h₁, ?_, ?_⟩
      · rw [Update_of_left_exit m g inp r₁ r₂ hun h₁]; simp
      · rw [Update_of_left_exit m g inp r₁ r₂ hun h₁]; rfl
    · rcases lt_or_le 1930 (xBeforeScoring m g inp) with h₂ | h₂
      · right; right
        refine ⟨hun, h₂, ?_, ?_⟩
        · rw [Update_of_right_exit m g inp r₁ r₂ hun h₂]; rfl
        · rw [Update_of_right_exit m g inp r₁ r₂ hun h₂]; simp
      · left
        rw [Update_of_no_score m g inp r₁ r₂ hun h₁ h₂]
        simp
  · left
    rw [Update_of_paused m g inp r₁ r₂ hp]
    simp

/-- Scores between 0 and `k`, the number of steps made so far. -/
lemma Update_scores_le (m : MathOps F) (g : Game F) (inp : Input) (r₁ r₂ : F) (k : Int)
    (hk : k < maxInt)
    (hl : 0 ≤ g.leftScore ∧ g.leftScore ≤ k) (hr : 0 ≤ g.rightScore ∧ g.rightScore ≤ k) :
    (0 ≤ (Update m g inp r₁ r₂).leftScore ∧ (Update m g inp r₁ r₂).leftScore ≤ k + 1) ∧
    (0 ≤ (Update m g inp r₁ r₂).rightScore ∧ (Update m g inp r₁ r₂).rightScore ≤ k + 1) := by
  have hmin : minInt ≤ 0 := by decide
  have wl := wrapInt_succ g.leftScore (by linarith [hl.1]) (by linarith [hl.2])
  have wr := wrapInt_succ g.rightScore (by linarith [hr.1]) (by linarith [hr.2])
  rcases Update_score_cases m g inp r₁ r₂ with h | h | h
  · rw [h.1, h.2]
    exact ⟨⟨hl.1, by linarith [hl.2]⟩, ⟨hr.1, by linarith [hr.2]⟩⟩
  · rw [h.2.2.1, h.2.2.2, wr]
    exact ⟨⟨hl.1, by linarith [hl.2]⟩, ⟨by linarith [hr.1], by linarith [hr.2]⟩⟩
  · rw [h.2.2.1, h.2.2.2, wl]
    exact ⟨⟨by linarith [hl.1], by linarith [hl.2]⟩, ⟨hr.1, by linarith [hr.2]⟩⟩

lemma run_scores_le (m : MathOps F) (fs : List (Frame F)) (g : Game F) (k : Int)
    (hk : k + fs.length ≤ maxInt)
    (hl : 0 ≤ g.leftScore ∧ g.leftScore ≤ k) (hr : 0 ≤ g.rightScore ∧ g.rightScore ≤ k) :
    (0 ≤ (run m g fs).leftScore ∧ (run m g fs).leftScore ≤ k + fs.length) ∧
    (0 ≤ (run m g fs).rightScore ∧ (run m g fs).rightScore ≤ k + fs.length) := by
  induction fs generalizing g k with
  | nil => simpa [run] using ⟨hl, hr⟩
  | cons f fs ih =>
    simp only [List.length_cons, Nat.cast_add, Nat.cast_one] at hk ⊢
    have hk' : k < maxInt := by
      have : (0 : Int) ≤ (fs.length : Int) := Int.natCast_nonneg _
      linarith
    have hstep := Update_scores_le m g f.inp f.r₁ f.r₂ k hk' hl hr
    have := ih (Update m g f.inp f.r₁ f.r₂) (k + 1) (by linarith) hstep.1 hstep.2
    simp only [run, List.foldl_cons]
    have e : k + ((fs.length : Int) + 1) = k + 1 + fs.length := by ring
    rw [e]
    exact this

/-- C8, amended. Score bookkeeping in 64-bit arithmetic: after one `Update` step each
score is either its previous value or that value plus one wrapped to `int` (exactly one
greater whenever the previous value is an `int` below the largest one); at most one of
the two scores changes in a step; a score changes only if the step is unpaused and the
ball's x after integration and collision handling is outside [-10, 1930]; and in every
state reached from `NewGame` (0-0) in at most 2^63 - 1 steps both scores are
non-negative and at most the number of steps. -/
theorem score_bookkeeping (m : MathOps F) :
    (∀ (g : Game F) (inp : Input) (r₁ r₂ : F),
      ((Update m g inp r₁ r₂).leftScore = g.leftScore ∨
        (Update m g inp r₁ r₂).leftScore = wrapInt (g.leftScore + 1)) ∧
      ((Update m g inp r₁ r₂).rightScore = g.rightScore ∨
        (Update m g inp r₁ r₂).rightScore = wrapInt (g.rightScore + 1)) ∧
      (minInt ≤ g.leftScore → g.leftScore < maxInt →
        (Update m g inp r₁ r₂).leftScore = g.leftScore ∨
          (Update m g inp r₁ r₂).leftScore = g.leftScore + 1) ∧
      (minInt ≤ g.rightScore → g.rightScore < maxInt →
        (Update m g inp r₁ r₂).rightScore = g.rightScore ∨
          (Update m g inp r₁ r₂).rightScore = g.rightScore + 1) ∧
      ((Update m g inp r₁ r₂).leftScore = g.leftScore ∨
        (Update m g inp r₁ r₂).rightScore = g.rightScore) ∧
      ((Update m g inp r₁ r₂).leftScore ≠ g.leftScore ∨
          (Update m g inp r₁ r₂).rightScore ≠ g.rightScore →
        unpausedStep g inp ∧
          (xBeforeScoring m g inp < -10 ∨ 1930 < xBeforeScoring m g inp))) ∧
    (∀ (r₀ : F) (fs : List (Frame F)), (fs.length : Int) ≤ maxInt →
      (0 ≤ (run m (NewGame m r₀) fs).leftScore ∧
        (run m (NewGame m r₀) fs).leftScore ≤ fs.length) ∧
      (0 ≤ (run m (NewGame m r₀) fs).rightScore ∧
        (run m (NewGame m r₀) fs).rightScore ≤ fs.length)) := by
  constructor
  · intro g inp r₁ r₂
    rcases Update_score_cases m g inp r₁ r₂ with h | h | h
    · refine ⟨Or.inl h.1, Or.inl h.2, fun _ _ => Or.inl h.1, fun _ _ => Or.inl h.2,
        Or.inl h.1, ?_⟩
      rintro (hne | hne)
      · exact absurd h.1 hne
      · exact absurd h.2 hne
    · refine ⟨Or.inl h.2.2.1, Or.inr h.2.2.2, fun _ _ => Or.inl h.2.2.1, ?_,
        Or.inl h.2.2.1, fun _ => ⟨h.1, Or.inl h.2.1⟩⟩
      intro h₁ h₂
      right
      rw [h.2.2.2, wrapInt_succ _ h₁ h₂]
    · refine ⟨Or.inr h.2.2.1, Or.inl h.2.2.2, ?_, fun _ _ => Or.inl h.2.2.2,
        Or.inr h.2.2.2, fun _ => ⟨h.1, Or.inr h.2.1⟩⟩
      intro h₁ h₂
      right
      rw [h.2.2.1, wrapInt_succ _ h₁ h₂]
  · intro r₀ fs hlen
    have h := run_scores_le m fs (NewGame m r₀) 0 (by simpa using hlen)
      (by simp [NewGame]) (by simp [NewGame])
    simpa using h

end Scores

section ScoresReal

/-- C8, as stated, fails: with leftScore = 2^63 - 1 (the largest `int`) and the ball
leaving the arena on the right, leftScore after the step is -2^63: neither its previous
value nor one greater, and negative. -/
theorem score_bookkeeping_counterexample :
    (Update realMath
      (stateWithScores { x := 1940, y := 535, vx := 4, vy := 0 } maxInt 0) noKeys 0 0).leftScore ≠
      maxInt ∧
    (Update realMath
      (stateWithScores { x := 1940, y := 535, vx := 4, vy := 0 } maxInt 0) noKeys 0 0).leftScore ≠
      maxInt + 1 ∧
    (Update realMath
      (stateWithScores { x := 1940, y := 535, vx := 4, vy := 0 } maxInt 0) noKeys 0 0).leftScore <
      0 := by
  have h : (Update realMath
      (stateWithScores { x := 1940, y := 535, vx := 4, vy := 0 } maxInt 0)
      noKeys 0 0).leftScore = minInt := by
    rw [Update_of_right_exit realMath
      (stateWithScores { x := 1940, y := 535, vx := 4, vy := 0 } maxInt 0 : Game ℝ)
      noKeys 0 0 rfl (right_exit_start maxInt)]
    exact wrapInt_maxInt
  rw [h]
  refine ⟨by decide, by decide, by decide⟩

/-- Witness for the amended C8: from 0-0 with the ball leaving on the right, the left
score becomes 1 and the right score stays 0. -/
theorem score_bookkeeping_witness :
    ((Update realMath
      (stateWithScores { x := 1940, y := 535, vx := 4, vy := 0 } 0 0) noKeys 0 0).leftScore = 0 ∨
      (Update realMath
        (stateWithScores { x := 1940, y := 535, vx := 4, vy := 0 } 0 0) noKeys 0 0).leftScore =
        0 + 1) ∧
    0 ≤ (run realMath (NewGame realMath 0) []).leftScore :=
  ⟨((score_bookkeeping realMath).1
      (stateWithScores { x := 1940, y := 535, vx := 4, vy := 0 } 0 0) noKeys 0 0).2.2.1
      (by decide) (by decide),
    ((score_bookkeeping realMath).2 0 [] (by decide)).1.1⟩

end ScoresReal

/-! ## C9: the serve -/

section Serve

lemma serveAngle_bounds (r : ℝ) (h₀ : 0 ≤ r) (h₁ : r < 1) :
    -(Real.pi / 8) ≤ serveAngle realMath r ∧ serveAngle realMath r ≤ Real.pi / 8 := by
  have hpi := Real.pi_pos
  show -(Real.pi / 8) ≤ (r * 2 - 1) * (Real.pi / 8) ∧ (r * 2 - 1) * (Real.pi / 8) ≤ Real.pi / 8
  constructor <;> nlinarith

/-- On `[-π/8, π/8]` the sine is bounded by `sin (π/8)` in absolute value. -/
lemma abs_sin_le_of_small (a : ℝ) (h₁ : -(Real.pi / 8) ≤ a) (h₂ : a ≤ Real.pi / 8) :
    |Real.sin a| ≤ Real.sin (Real.pi / 8) := by
  have hpi := Real.pi_pos
  rw [abs_le]
  constructor
  · rw [← Real.sin_neg]
    exact Real.sin_le_sin_of_le_of_le_pi_div_two (by linarith) (by linarith) h₁
  · exact Real.sin_le_sin_of_le_of_le_pi_div_two (by linarith) (by linarith) h₂

/-- C9. Serve contract of `resetBall`: for every state, every `toRight` and every draw
`r` in [0, 1), the ball is put at (955, 535), so that its centre
(x + BallSize/2, y + BallSize/2) is the arena centre (960, 540); the serve angle is
(2r - 1)π/8 and lies in [-π/8, π/8]; vx = +4 if `toRight` and -4 otherwise;
vy = 1.5 sin((2r - 1)π/8), hence |vy| <= 1.5 sin(π/8); paddles, scores and pause flag
are unchanged. -/
theorem serve_contract (g : Game ℝ) (toRight : Bool) (r : ℝ) (h₀ : 0 ≤ r) (h₁ : r < 1) :
    ((resetBall realMath g toRight r).ball.x = 955 ∧
      (resetBall realMath g toRight r).ball.y = 535) ∧
    ((resetBall realMath g toRight r).ball.x + ((BallSize / 2 : Int) : ℝ) = 960 ∧
      (resetBall realMath g toRight r).ball.y + ((BallSize / 2 : Int) : ℝ) = 540 ∧
      ((ScreenWidth / 2 : Int) : ℝ) = 960 ∧ ((ScreenHeight / 2 : Int) : ℝ) = 540) ∧
    (serveAngle realMath r = (2 * r - 1) * Real.pi / 8 ∧
      -(Real.pi / 8) ≤ (2 * r - 1) * Real.pi / 8 ∧ (2 * r - 1) * Real.pi / 8 ≤ Real.pi / 8) ∧
    (resetBall realMath g toRight r).ball.vx = (if toRight then 4 else -4) ∧
    (resetBall realMath g toRight r).ball.vy =
      3 / 2 * Real.sin ((2 * r - 1) * Real.pi / 8) ∧
    |(resetBall realMath g toRight r).ball.vy| ≤ 3 / 2 * Real.sin (Real.pi / 8) ∧
    ((resetBall realMath g toRight r).leftPaddle = g.leftPaddle ∧
      (resetBall realMath g toRight r).rightPaddle = g.rightPaddle ∧
      (resetBall realMath g toRight r).leftScore = g.leftScore ∧
      (resetBall realMath g toRight r).rightScore = g.rightScore ∧
      (resetBall realMath g toRight r).paused = g.paused) := by
  have he : serveAngle realMath r = (2 * r - 1) * Real.pi / 8 := by
    show (r * 2 - 1) * (Real.pi / 8) = (2 * r - 1) * Real.pi / 8
    ring
  have ha := serveAngle_bounds r h₀ h₁
  have hs := abs_sin_le_of_small _ ha.1 ha.2
  have hvy : (resetBall realMath g toRight r).ball.vy =
      3 / 2 * Real.sin ((2 * r - 1) * Real.pi / 8) := by
    rw [resetBall_ball_vy, ← he]
    rfl
  rw [he] at ha hs
  refine ⟨⟨resetBall_ball_x _ _ _ _, resetBall_ball_y _ _ _ _⟩, ⟨?_, ?_, ?_, ?_⟩, ⟨he, ha⟩,
    resetBall_ball_vx _ _ _ _, hvy, ?_, ⟨rfl, rfl, rfl, rfl, rfl⟩⟩
  · rw [resetBall_ball_x, halfBall_eq]; norm_num
  · rw [resetBall_ball_y, halfBall_eq]; norm_num
  · norm_num [ScreenWidth]
  · norm_num [ScreenHeight]
  · rw [hvy, abs_mul, abs_of_pos (by norm_num : (0 : ℝ) < 3 / 2)]
    exact mul_le_mul_of_nonneg_left hs (by norm_num)

/-- Witness for C9: the draw r = 1/2 gives the angle 0, a horizontal serve to the left
from the centre. -/
theorem serve_contract_witness :
    (0 : ℝ) ≤ 1 / 2 ∧ (1 / 2 : ℝ) < 1 ∧
    (resetBall realMath (stateWithBall { x := 0, y := 0, vx := 0, vy := 0 }) false
      (1 / 2)).ball.x = 955 ∧
    (resetBall realMath (stateWithBall { x := 0, y := 0, vx := 0, vy := 0 }) false
      (1 / 2)).ball.vx = -4 ∧
    (resetBall realMath (stateWithBall { x := 0, y := 0, vx := 0, vy := 0 }) false
      (1 / 2)).ball.vy = 0 := by
  have h := serve_contract (stateWithBall { x := 0, y := 0, vx := 0, vy := 0 }) false (1 / 2)
    (by norm_num) (by norm_num)
  refine ⟨by norm_num, by norm_num, h.1.1, h.2.2.2.1, ?_⟩
  rw [h.2.2.2.2.1]
  norm_num

end Serve

/-! ## C11: paddle motion -/

section PaddleMotion
variable {F : Type} [LinearOrderedField F]

lemma movePaddles_leftPaddle_y (g : Game F) (inp : Input) :
    (movePaddles g inp).leftPaddle.y =
      g.leftPaddle.y - 6 * held inp.keyW + 6 * held inp.keyS := by
  unfold movePaddles held
  simp only [paddleSpeed_eq]
  cases inp.keyW <;> cases inp.keyS <;> cases inp.keyArrowUp <;> cases inp.keyArrowDown <;> simp

lemma movePaddles_rightPaddle_y (g : Game F) (inp : Input) :
    (movePaddles g inp).rightPaddle.y =
      g.rightPaddle.y - 6 * held inp.keyArrowUp + 6 * held inp.keyArrowDown := by
  unfold movePaddles held
  simp only [paddleSpeed_eq]
  cases inp.keyW <;> cases inp.keyS <;> cases inp.keyArrowUp <;> cases inp.keyArrowDown <;> simp

/-- The two clamping tests of the program, on a value, are the `clamp` of the
specification. -/
lemma clamp_tests (v : F) :
    (if (if v < 0 then 0 else v) > 980 then 980 else (if v < 0 then 0 else v)) =
      clamp v 0 980 := by
  unfold clamp
  by_cases h₁ : v < 0
  · rw [if_pos h₁, if_neg (by norm_num), max_eq_right h₁.le, min_eq_left (by norm_num)]
  · rw [if_neg h₁, max_eq_left (not_lt.mp h₁)]
    by_cases h₂ : v > 980
    · rw [if_pos h₂, min_eq_right h₂.le]
    · rw [if_neg h₂, min_eq_left (not_lt.mp h₂)]

lemma clampPaddles_leftPaddle_y (g : Game F) :
    (clampPaddles g).leftPaddle.y = clamp g.leftPaddle.y 0 980 := by
  rw [← clamp_tests]
  unfold clampPaddles
  simp only [paddleMax_eq]
  split_ifs <;> rfl

lemma clampPaddles_rightPaddle_y (g : Game F) :
    (clampPaddles g).rightPaddle.y = clamp g.rightPaddle.y 0 980 := by
  rw [← clamp_tests]
  unfold clampPaddles
  simp only [paddleMax_eq]
  split_ifs <;> rfl

lemma clamp_of_mem (v : F) (h₀ : 0 ≤ v) (h₁ : v ≤ 980) : clamp v 0 980 = v := by
  unfold clamp
  rw [max_eq_left h₀, min_eq_left h₁]

/-- C11, amended. Paddle motion: in an unpaused `Update` step the new leftPaddle.y is
clamp((old y - 6[W]) + 6[S], 0, 980) and the new rightPaddle.y is
clamp((old y - 6[Up]) + 6[Down], 0, 980), so each paddle depends only on its own two
keys; both paddles keep their x; in exact arithmetic (float64 rounding set aside) a paddle
with y in [0, 980] and both of its keys held keeps its y. -/
theorem paddle_motion (m : MathOps F) (g : Game F) (inp : Input) (r₁ r₂ : F)
    (hun : unpausedStep g inp) :
    (Update m g inp r₁ r₂).leftPaddle.y =
      clamp (g.leftPaddle.y - 6 * held inp.keyW + 6 * held inp.keyS) 0 980 ∧
    (Update m g inp r₁ r₂).rightPaddle.y =
      clamp (g.rightPaddle.y - 6 * held inp.keyArrowUp + 6 * held inp.keyArrowDown) 0 980 ∧
    (Update m g inp r₁ r₂).leftPaddle.x = g.leftPaddle.x ∧
    (Update m g inp r₁ r₂).rightPaddle.x = g.rightPaddle.x ∧
    (0 ≤ g.leftPaddle.y → g.leftPaddle.y ≤ 980 → inp.keyW = true → inp.keyS = true →
      (Update m g inp r₁ r₂).leftPaddle.y = g.leftPaddle.y) ∧
    (0 ≤ g.rightPaddle.y → g.rightPaddle.y ≤ 980 → inp.keyArrowUp = true →
      inp.keyArrowDown = true → (Update m g inp r₁ r₂).rightPaddle.y = g.rightPaddle.y) := by
  have hl : (Update m g inp r₁ r₂).leftPaddle.y =
      clamp (g.leftPaddle.y - 6 * held inp.keyW + 6 * held inp.keyS) 0 980 := by
    rw [Update_of_unpaused m g inp r₁ r₂ hun, physics_leftPaddle, clampPaddles_leftPaddle_y,
      movePaddles_leftPaddle_y, togglePause_leftPaddle]
  have hr : (Update m g inp r₁ r₂).rightPaddle.y =
      clamp (g.rightPaddle.y - 6 * held inp.keyArrowUp + 6 * held inp.keyArrowDown) 0 980 := by
    rw [Update_of_unpaused m g inp r₁ r₂ hun, physics_rightPaddle, clampPaddles_rightPaddle_y,
      movePaddles_rightPaddle_y, togglePause_rightPaddle]
  refine ⟨hl, hr, ?_, ?_, ?_, ?_⟩
  · rw [Update_of_unpaused m g inp r₁ r₂ hun, physics_leftPaddle]
    simp
  · rw [Update_of_unpaused m g inp r₁ r₂ hun, physics_rightPaddle]
    simp
  · intro h₀ h₁ hw hs
    rw [hl, hw, hs]
    have e : g.leftPaddle.y - 6 * held true + 6 * held true = g.leftPaddle.y := by
      simp [held]
    rw [e, clamp_of_mem _ h₀ h₁]
  · intro h₀ h₁ hu hd
    rw [hr, hu, hd]
    have e : g.rightPaddle.y - 6 * held true + 6 * held true = g.rightPaddle.y := by
      simp [held]
    rw [e, clamp_of_mem _ h₀ h₁]

end PaddleMotion

section PaddleMotionReal

/-- Witness for the amended C11: from the start position, W alone moves the left paddle from 490 to
484 and Down alone moves the right paddle from 490 to 496. -/
theorem paddle_motion_witness :
    (Update realMath (stateWithBall { x := 955, y := 535, vx := 4, vy := 0 })
      { keySpace := false, keyW := true, keyS := false, keyArrowUp := false,
        keyArrowDown := true } 0 0).leftPaddle.y = 484 ∧
    (Update realMath (stateWithBall { x := 955, y := 535, vx := 4, vy := 0 })
      { keySpace := false, keyW := true, keyS := false, keyArrowUp := false,
        keyArrowDown := true } 0 0).rightPaddle.y = 496 := by
  have h := paddle_motion realMath (stateWithBall { x := 955, y := 535, vx := 4, vy := 0 })
    { keySpace := false, keyW := true, keyS := false, keyArrowUp := false,
      keyArrowDown := true } 0 0 rfl
  constructor
  · rw [h.1]
    norm_num [clamp, held, stateWithBall]
  · rw [h.2.1]
    norm_num [clamp, held, stateWithBall]

end PaddleMotionReal

/-! ## C12: a wall bounce without paddle contact or score -/

section WallBounce
variable {F : Type} [LinearOrderedField F]

/-- The top test fires (and then the bottom test does not). -/
lemma beforePaddles_ball_of_top_hit (g : Game F) (inp : Input)
    (h : g.ball.y + g.ball.vy ≤ 0) :
    (beforePaddles g inp).ball =
      { x := g.ball.x + g.ball.vx, y := 0, vx := g.ball.vx, vy := -g.ball.vy } := by
  unfold beforePaddles wallCollision
  simp only [moveBall, clampPaddles_ball, movePaddles_ball, h, if_true, ballSize_eq,
    screenHeight_eq, zero_add, ge_iff_le]
  rw [if_neg (by norm_num)]

/-- The top test does not fire and the bottom test does. -/
lemma beforePaddles_ball_of_bottom_hit (g : Game F) (inp : Input)
    (h₁ : ¬ g.ball.y + g.ball.vy ≤ 0) (h₂ : g.ball.y + g.ball.vy + 10 ≥ 1080) :
    (beforePaddles g inp).ball =
      { x := g.ball.x + g.ball.vx, y := 1070, vx := g.ball.vx, vy := -g.ball.vy } := by
  unfold beforePaddles wallCollision
  simp only [moveBall, clampPaddles_ball, movePaddles_ball, h₁, if_false, ballSize_eq,
    screenHeight_eq, ballMax_eq]
  rw [if_pos h₂]

/-- C12. Pure wall bounce: in an unpaused `Update` step in which the ball, after
integration, has y <= 0 or y + BallSize >= ScreenHeight, no paddle branch fires and no
point is scored, vx is unchanged, x is old x + old vx, vy is the negation of the old vy
(the top and the bottom test never both hold), and y is 0 at the top and
ScreenHeight - BallSize = 1070 at the bottom. -/
theorem pure_wall_bounce (m : MathOps F) (g : Game F) (inp : Input) (r₁ r₂ : F)
    (hun : unpausedStep g inp)
    (hwall : g.ball.y + g.ball.vy ≤ 0 ∨ g.ball.y + g.ball.vy + 10 ≥ 1080)
    (hnl : ¬ leftFires g inp) (hnr : ¬ rightFires m g inp)
    (hs₁ : -10 ≤ xBeforeScoring m g inp) (hs₂ : xBeforeScoring m g inp ≤ 1930) :
    (Update m g inp r₁ r₂).ball.vx = g.ball.vx ∧
    (Update m g inp r₁ r₂).ball.x = g.ball.x + g.ball.vx ∧
    (Update m g inp r₁ r₂).ball.vy = -g.ball.vy ∧
    (g.ball.y + g.ball.vy ≤ 0 → (Update m g inp r₁ r₂).ball.y = 0) ∧
    (g.ball.y + g.ball.vy + 10 ≥ 1080 → (Update m g inp r₁ r₂).ball.y = 1070) ∧
    ¬ (g.ball.y + g.ball.vy ≤ 0 ∧ g.ball.y + g.ball.vy + 10 ≥ 1080) := by
  have hexcl : ¬ (g.ball.y + g.ball.vy ≤ 0 ∧ g.ball.y + g.ball.vy + 10 ≥ 1080) := by
    rintro ⟨a, b⟩
    linarith
  rw [Update_of_no_score m g inp r₁ r₂ hun hs₁ hs₂, beforeScoring_of_no_fire m g inp hnl hnr hun]
  by_cases htop : g.ball.y + g.ball.vy ≤ 0
  · rw [beforePaddles_ball_of_top_hit (togglePause g inp) inp (by simpa using htop)]
    simp only [togglePause_ball]
    exact ⟨trivial, trivial, trivial, fun _ => trivial, fun hb => absurd ⟨htop, hb⟩ hexcl, hexcl⟩
  · have hbot : g.ball.y + g.ball.vy + 10 ≥ 1080 := hwall.resolve_left htop
    rw [beforePaddles_ball_of_bottom_hit (togglePause g inp) inp (by simpa using htop)
      (by simpa using hbot)]
    simp only [togglePause_ball]
    exact ⟨trivial, trivial, trivial, fun ht => absurd ht htop, fun _ => trivial, hexcl⟩

end WallBounce

section WallBounceReal

/-- Witness for C12, the scenario of the claim: ball at (0, 0) with vx = -4, vy = -1.5
yields x = -4, y = 0, vx = -4, vy = +1.5. -/
theorem pure_wall_bounce_witness :
    (Update realMath (stateWithBall { x := 0, y := 0, vx := -4, vy := -(3 / 2) })
      noKeys 0 0).ball = { x := -4, y := 0, vx := -4, vy := 3 / 2 } := by
  have hmiss : (stateWithBall { x := 0, y := 0, vx := -4, vy := -(3 / 2) } : Game ℝ).ball.x +
      (stateWithBall { x := 0, y := 0, vx := -4, vy := -(3 / 2) } : Game ℝ).ball.vx < 20 ∨
      1890 < (stateWithBall { x := 0, y := 0, vx := -4, vy := -(3 / 2) } : Game ℝ).ball.x +
        (stateWithBall { x := 0, y := 0, vx := -4, vy := -(3 / 2) } : Game ℝ).ball.vx :=
    Or.inl (by norm_num [stateWithBall])
  have hx := xBeforeScoring_of_miss realMath _ noKeys rfl rfl hmiss
  have hnf := not_fires_of_miss realMath _ noKeys rfl rfl hmiss
  have htop : (stateWithBall { x := 0, y := 0, vx := -4, vy := -(3 / 2) } : Game ℝ).ball.y +
      (stateWithBall { x := 0, y := 0, vx := -4, vy := -(3 / 2) } : Game ℝ).ball.vy ≤ 0 := by
    norm_num [stateWithBall]
  have h := pure_wall_bounce realMath
    (stateWithBall { x := 0, y := 0, vx := -4, vy := -(3 / 2) }) noKeys 0 0 rfl
    (Or.inl htop) hnf.1 hnf.2
    (by rw [hx]; norm_num [stateWithBall]) (by rw [hx]; norm_num [stateWithBall])
  have hy := h.2.2.2.1 htop
  obtain ⟨h₁, h₂, h₃, -⟩ := h
  cases hb : (Update realMath (stateWithBall { x := 0, y := 0, vx := -4, vy := -(3 / 2) })
    noKeys 0 0).ball with
  | mk bx b₂ bvx bvy =>
    rw [hb] at h₁ h₂ h₃ hy
    simp only [stateWithBall] at h₁ h₂ h₃ hy
    subst h₁ h₂ h₃ hy
    norm_num

end WallBounceReal

/-! ## C13: the ball does not stick to a paddle -/

section AntiSticking
variable {F : Type} [LinearOrderedField F]

lemma Update_leftPaddle_x (m : MathOps F) (g : Game F) (inp : Input) (r₁ r₂ : F) :
    (Update m g inp r₁ r₂).leftPaddle.x = g.leftPaddle.x := by
  cases h : (togglePause g inp).paused
  · rw [Update_of_unpaused m g inp r₁ r₂ h, physics_leftPaddle]
    simp
  · rw [Update_of_paused m g inp r₁ r₂ h]
    simp

lemma Update_rightPaddle_x (m : MathOps F) (g : Game F) (inp : Input) (r₁ r₂ : F) :
    (Update m g inp r₁ r₂).rightPaddle.x = g.rightPaddle.x := by
  cases h : (togglePause g inp).paused
  · rw [Update_of_unpaused m g inp r₁ r₂ h, physics_rightPaddle]
    simp
  · rw [Update_of_paused m g inp r₁ r₂ h]
    simp

/-- Position and direction of the ball after a step in which the left branch fired. -/
lemma ball_after_leftFires (m : MathOps F) (g : Game F) (inp : Input) (r₁ r₂ : F)
    (hl : g.leftPaddle.x = 20) (hr : g.rightPaddle.x = 1888) (h : leftFires g inp) :
    (Update m g inp r₁ r₂).ball.x = 321 / 10 ∧ 0 ≤ (Update m g inp r₁ r₂).ball.vx := by
  rw [Update_of_leftFires m g inp r₁ r₂ hl hr h, leftCollision_of_hit m _ h.2]
  refine ⟨?_, abs_nonneg _⟩
  simp only [beforePaddles_leftPaddle, clampPaddles_leftPaddle_x, movePaddles_leftPaddle_x,
    togglePause_leftPaddle, hl, paddleWidth_eq]
  norm_num

/-- Position and direction of the ball after a step in which the right branch fired. -/
lemma ball_after_rightFires (m : MathOps F) (g : Game F) (inp : Input) (r₁ r₂ : F)
    (hl : g.leftPaddle.x = 20) (hr : g.rightPaddle.x = 1888) (h : rightFires m g inp) :
    (Update m g inp r₁ r₂).ball.x = 18779 / 10 ∧ (Update m g inp r₁ r₂).ball.vx ≤ 0 := by
  rw [Update_of_rightFires m g inp r₁ r₂ hl hr h, rightCollision_of_hit m _ h.2]
  refine ⟨?_, neg_nonpos.mpr (abs_nonneg _)⟩
  simp only [leftCollision_rightPaddle, beforePaddles_rightPaddle, clampPaddles_rightPaddle_x,
    movePaddles_rightPaddle_x, togglePause_rightPaddle, hr, ballSize_eq]
  norm_num

/-- A ball at x = 32.1 that does not move left is out of reach of the left paddle. -/
lemma not_leftFires_of_nudged (g : Game F) (inp : Input)
    (hl : g.leftPaddle.x = 20) (hx : g.ball.x = 321 / 10) (hv : 0 ≤ g.ball.vx) :
    ¬ leftFires g inp := by
  intro h
  have a := h.2.1
  simp only [beforePaddles_ball_x, beforePaddles_leftPaddle, clampPaddles_leftPaddle_x,
    movePaddles_leftPaddle_x, togglePause_leftPaddle, togglePause_ball, hl, hx,
    paddleWidth_eq] at a
  linarith

/-- A ball at x = 1877.9 that does not move right is out of reach of the right paddle,
whether or not the left branch fires first. -/
lemma not_rightFires_of_nudged (m : MathOps F) (g : Game F) (inp : Input)
    (hl : g.leftPaddle.x = 20) (hr : g.rightPaddle.x = 1888)
    (hx : g.ball.x = 18779 / 10) (hv : g.ball.vx ≤ 0) :
    ¬ rightFires m g inp := by
  intro h
  have a := h.2.1
  by_cases hit : leftHit (beforePaddles (togglePause g inp) inp)
  · rw [leftCollision_of_hit m _ hit] at a
    simp only [leftCollision_rightPaddle, beforePaddles_rightPaddle, beforePaddles_leftPaddle,
      clampPaddles_rightPaddle_x, clampPaddles_leftPaddle_x, movePaddles_rightPaddle_x,
      movePaddles_leftPaddle_x, togglePause_rightPaddle, togglePause_leftPaddle, hl, hr,
      ballSize_eq, paddleWidth_eq] at a
    norm_num at a
  · rw [leftCollision_of_not_hit m _ hit] at a
    simp only [beforePaddles_ball_x, beforePaddles_rightPaddle, clampPaddles_rightPaddle_x,
      movePaddles_rightPaddle_x, togglePause_rightPaddle, togglePause_ball, hr, hx,
      ballSize_eq] at a
    linarith

/-- C13. Anti-sticking: with the paddles at x = 20 and x = 1888, if the left-paddle
branch fires in an `Update` step then the ball's x after the step is
leftPaddle.x + PaddleWidth + 0.1 = 32.1 and in the next `Update` step, whatever the
input, the left-paddle branch does not fire; after a right-paddle collision the ball's x
is rightPaddle.x - BallSize - 0.1 = 1877.9 and the right-paddle branch does not fire in
the next step. -/
theorem anti_sticking (m : MathOps F) (g : Game F) (inp : Input) (r₁ r₂ : F)
    (hl : g.leftPaddle.x = 20) (hr : g.rightPaddle.x = 1888) :
    (leftFires g inp →
      (Update m g inp r₁ r₂).ball.x = g.leftPaddle.x + (PaddleWidth : F) + 1 / 10 ∧
      (Update m g inp r₁ r₂).ball.x = 321 / 10 ∧
      ∀ inp' : Input, ¬ leftFires (Update m g inp r₁ r₂) inp') ∧
    (rightFires m g inp →
      (Update m g inp r₁ r₂).ball.x = g.rightPaddle.x - (BallSize : F) - 1 / 10 ∧
      (Update m g inp r₁ r₂).ball.x = 18779 / 10 ∧
      ∀ inp' : Input, ¬ rightFires m (Update m g inp r₁ r₂) inp') := by
  have hl' := Update_leftPaddle_x m g inp r₁ r₂
  have hr' := Update_rightPaddle_x m g inp r₁ r₂
  rw [hl] at hl'
  rw [hr] at hr'
  constructor
  · intro h
    obtain ⟨hx, hv⟩ := ball_after_leftFires m g inp r₁ r₂ hl hr h
    refine ⟨?_, hx, fun inp' => not_leftFires_of_nudged _ inp' hl' hx hv⟩
    rw [hx, hl, paddleWidth_eq]
    norm_num
  · intro h
    obtain ⟨hx, hv⟩ := ball_after_rightFires m g inp r₁ r₂ hl hr h
    refine ⟨?_, hx, fun inp' => not_rightFires_of_nudged m _ inp' hl' hr' hx hv⟩
    rw [hx, hr, ballSize_eq]
    norm_num

end AntiSticking

section AntiStickingReal

/-- Witness for C13: the ball at (25, 535) with velocity (-4, 0) hits the left paddle, is
put at x = 32.1 and does not hit it again in the next step. -/
theorem anti_sticking_witness :
    leftFires (stateWithBall { x := 25, y := 535, vx := -4, vy := 0 } : Game ℝ) noKeys ∧
    (Update realMath (stateWithBall { x := 25, y := 535, vx := -4, vy := 0 })
      noKeys 0 0).ball.x = 321 / 10 ∧
    ¬ leftFires (Update realMath (stateWithBall { x := 25, y := 535, vx := -4, vy := 0 })
      noKeys 0 0) noKeys :=
  ⟨leftFires_start (-4) 0 (by norm_num) (by norm_num) (by norm_num) (by norm_num),
    ((anti_sticking realMath (stateWithBall { x := 25, y := 535, vx := -4, vy := 0 })
      noKeys 0 0 rfl rfl).1
      (leftFires_start (-4) 0 (by norm_num) (by norm_num) (by norm_num) (by norm_num))).2.1,
    ((anti_sticking realMath (stateWithBall { x := 25, y := 535, vx := -4, vy := 0 })
      noKeys 0 0 rfl rfl).1
      (leftFires_start (-4) 0 (by norm_num) (by norm_num) (by norm_num) (by norm_num))).2.2
      noKeys⟩

end AntiStickingReal

/-! ## C14 and C15: the bounce angle -/

section BounceAngle
variable {F : Type} [LinearOrderedField F]

/-- The ball at (25, 590) moving left with velocity (-4, 0) touches the lower end of the
left paddle (y = 490 .. 590): after its move the paddle and the ball are at heights 490
and 590. -/
lemma leftFires_low_end :
    leftFires (stateWithBall { x := 25, y := 590, vx := -4, vy := 0 } : Game F) noKeys ∧
    (beforePaddles (togglePause
      (stateWithBall { x := 25, y := 590, vx := -4, vy := 0 } : Game F) noKeys)
      noKeys).leftPaddle.y = 490 ∧
    (beforePaddles (togglePause
      (stateWithBall { x := 25, y := 590, vx := -4, vy := 0 } : Game F) noKeys)
      noKeys).ball.y = 590 := by
  refine ⟨⟨rfl, ?_⟩, ?_, ?_⟩
  · simp only [leftHit, beforePaddles, wallCollision, moveBall, clampPaddles, movePaddles,
      togglePause, noKeys, stateWithBall, paddleMax_eq, ballSize_eq, paddleWidth_eq,
      screenHeight_eq, paddleHeight_eq, ballMax_eq]
    norm_num
  · simp only [beforePaddles, wallCollision, moveBall, clampPaddles, movePaddles,
      togglePause, noKeys, stateWithBall, paddleMax_eq, ballSize_eq,
      screenHeight_eq, ballMax_eq]
    norm_num
  · simp only [beforePaddles, wallCollision, moveBall, clampPaddles, movePaddles,
      togglePause, noKeys, stateWithBall, paddleMax_eq, ballSize_eq,
      screenHeight_eq, ballMax_eq]
    norm_num

lemma normalizedOffset_eq (py bally : F) :
    normalizedOffset py bally = ((bally + 5) - (py + 50)) / 50 := by
  simp only [normalizedOffset, halfPaddle_eq, halfBall_eq]

end BounceAngle

section BounceAngleReal

/-- The bounce angle of a firing paddle branch is at most 1.1 * 75 = 82.5 degrees in
absolute value. -/
lemma bounceAngle_abs_le (py bally : ℝ)
    (h₁ : bally + (BallSize : ℝ) ≥ py) (h₂ : bally ≤ py + (PaddleHeight : ℝ)) :
    |bounceAngle realMath py bally| ≤ 82.5 * Real.pi / 180 := by
  obtain ⟨hlo, hhi⟩ := normalizedOffset_bound py bally h₁ h₂
  have hpi := Real.pi_pos
  show |normalizedOffset py bally * (75 * Real.pi / 180)| ≤ 82.5 * Real.pi / 180
  rw [abs_le]
  constructor <;> nlinarith

/-- The state before the paddle tests for the ball at (25, 590) with velocity (-4, 0). -/
lemma beforePaddles_low_end_ball :
    (beforePaddles (togglePause
      (stateWithBall { x := 25, y := 590, vx := -4, vy := 0 } : Game ℝ) noKeys)
      noKeys).ball = { x := 21, y := 590, vx := -4, vy := 0 } := by
  have h₁ : ¬ ((590 : ℝ) + 0 ≤ 0) := by norm_num
  have h₂ : ¬ ((590 : ℝ) + 0 + 10 ≥ 1080) := by norm_num
  simp only [beforePaddles, wallCollision, moveBall, clampPaddles_ball, movePaddles_ball,
    togglePause_ball, stateWithBall, ballSize_eq, screenHeight_eq, h₁, h₂, if_false]
  norm_num

lemma hypot_four : realMath.Hypot (-4) 0 = 4 := by
  show Real.sqrt ((-4 : ℝ) ^ 2 + 0 ^ 2) = 4
  have e : (-4 : ℝ) ^ 2 + 0 ^ 2 = 4 ^ 2 := by norm_num
  rw [e, Real.sqrt_sq (by norm_num)]

/-- C14. Unclamped bounce angle: for the ball at (25, 590) with velocity (-4, 0), the
paddles at their start position and no key held, the left-paddle branch fires during
`Update` with the paddle at 490 and the ball at 590, so with the normalized hit offset
((590 + 5) - (490 + 50)) / 50 = 1.1, outside [-1, 1]; the bounce angle is
1.1 * MaxBounceAngle = 82.5 degrees, larger than the nominal maximum of 75 degrees, and
the velocity after the step is (|4 cos(82.5 degrees)|, 4 sin(82.5 degrees)). -/
theorem unclamped_bounce_angle :
    ∃ (g : Game ℝ) (inp : Input),
      (g = (stateWithBall { x := 25, y := 590, vx := -4, vy := 0 } : Game ℝ) ∧ inp = noKeys) ∧
      (g.leftPaddle.x = 20 ∧ g.rightPaddle.x = 1888) ∧
      leftFires g inp ∧
      ((beforePaddles (togglePause g inp) inp).leftPaddle.y = 490 ∧
        (beforePaddles (togglePause g inp) inp).ball.y = 590) ∧
      (normalizedOffset (beforePaddles (togglePause g inp) inp).leftPaddle.y
          (beforePaddles (togglePause g inp) inp).ball.y = ((590 + 5) - (490 + 50)) / 50 ∧
        normalizedOffset (beforePaddles (togglePause g inp) inp).leftPaddle.y
          (beforePaddles (togglePause g inp) inp).ball.y = 11 / 10 ∧
        (1 : ℝ) < 11 / 10) ∧
      (bounceAngle realMath (beforePaddles (togglePause g inp) inp).leftPaddle.y
          (beforePaddles (togglePause g inp) inp).ball.y = 11 / 10 * (75 * Real.pi / 180) ∧
        11 / 10 * (75 * Real.pi / 180) = 82.5 * Real.pi / 180 ∧
        75 * Real.pi / 180 < |11 / 10 * (75 * Real.pi / 180)|) ∧
      (∀ r₁ r₂ : ℝ,
        (Update realMath g inp r₁ r₂).ball.vx =
          |4 * Real.cos (11 / 10 * (75 * Real.pi / 180))| ∧
        (Update realMath g inp r₁ r₂).ball.vy =
          4 * Real.sin (11 / 10 * (75 * Real.pi / 180))) := by
  obtain ⟨hf, hp, hb⟩ := leftFires_low_end (F := ℝ)
  have hpi := Real.pi_pos
  have hn : normalizedOffset (490 : ℝ) 590 = 11 / 10 := by
    rw [normalizedOffset_eq]; norm_num
  have ha : bounceAngle realMath (490 : ℝ) 590 = 11 / 10 * (75 * Real.pi / 180) := by
    show normalizedOffset (490 : ℝ) 590 * (75 * Real.pi / 180) = _
    rw [hn]
  refine ⟨stateWithBall { x := 25, y := 590, vx := -4, vy := 0 }, noKeys, ⟨rfl, rfl⟩,
    ⟨rfl, rfl⟩, hf, ⟨hp, hb⟩, ⟨?_, ?_, by norm_num⟩, ⟨?_, by ring, ?_⟩, ?_⟩
  · rw [hp, hb, hn]; norm_num
  · rw [hp, hb, hn]
  · rw [hp, hb, ha]
  · rw [abs_of_pos (by positivity)]
    nlinarith
  · intro r₁ r₂
    have hball := Update_of_leftFires realMath
      (stateWithBall { x := 25, y := 590, vx := -4, vy := 0 }) noKeys r₁ r₂ rfl rfl hf
    rw [leftCollision_of_hit realMath _ hf.2, hp, beforePaddles_low_end_ball] at hball
    rw [hball]
    simp only [ha, hypot_four]
    exact ⟨rfl, rfl⟩

end BounceAngleReal

section BounceAngleWitness

end BounceAngleWitness

/-! ## C16: the ball stays inside the arena band -/

section BallBounds
variable {F : Type} [LinearOrderedField F]

/-- The scoring tests leave the ball alone or serve it again. -/
lemma scoring_ball_cases (m : MathOps F) (g : Game F) (r₁ r₂ : F) :
    ((-10 ≤ g.ball.x ∧ g.ball.x ≤ 1930) ∧ (scoring m g r₁ r₂).ball = g.ball) ∨
    (∃ (g' : Game F) (b : Bool), (scoring m g r₁ r₂).ball = (resetBall m g' b r₁).ball) := by
  rcases lt_or_le g.ball.x (-10) with h₁ | h₁
  · right
    exact ⟨_, false, by rw [scoring_of_left_exit m g r₁ r₂ h₁]⟩
  · rcases lt_or_le 1930 g.ball.x with h₂ | h₂
    · right
      exact ⟨_, true, by rw [scoring_of_right_exit m g r₁ r₂ h₂]⟩
    · left
      exact ⟨⟨h₁, h₂⟩, by rw [scoring_of_inside m g r₁ r₂ h₁ h₂]⟩

end BallBounds

section BallBoundsReal

end BallBoundsReal

/-! ## C17: the speed of the ball in play -/

section SpeedInvariant

/-- A served ball has speed between 4 and hypot(4, 1.5), whatever the draw. -/
lemma resetBall_speedInRange (g : Game ℝ) (b : Bool) (r : ℝ) :
    speedInRange realMath (resetBall realMath g b r) := by
  unfold speedInRange
  rw [resetBall_ball_vx, resetBall_ball_vy]
  have hs := Real.sin_sq_le_one (serveAngle realMath r)
  have hvx : (if b then (4 : ℝ) else -4) ^ 2 = 16 := by cases b <;> norm_num
  show InitialSpeedX ≤ Real.sqrt (_ ^ 2 + (3 / 2 * realMath.Sin (serveAngle realMath r)) ^ 2) ∧
    Real.sqrt (_ ^ 2 + (3 / 2 * realMath.Sin (serveAngle realMath r)) ^ 2) ≤
      Real.sqrt (InitialSpeedX ^ 2 + InitialSpeedY ^ 2)
  rw [hvx]
  have hsin : realMath.Sin (serveAngle realMath r) = Real.sin (serveAngle realMath r) := rfl
  rw [hsin]
  constructor
  · rw [Real.le_sqrt' (by norm_num [InitialSpeedX])]
    norm_num [InitialSpeedX]
    positivity
  · apply Real.sqrt_le_sqrt
    norm_num [InitialSpeedX, InitialSpeedY]
    nlinarith

lemma speedInRange_of_ball_eq (g g' : Game ℝ) (h : g'.ball = g.ball)
    (hg : speedInRange realMath g) : speedInRange realMath g' := by
  unfold speedInRange at hg ⊢
  rw [h]
  exact hg

lemma beforeScoring_speedInRange (g : Game ℝ) (inp : Input) (hg : speedInRange realMath g) :
    speedInRange realMath (beforeScoring realMath g inp) := by
  unfold speedInRange at hg ⊢
  rw [beforeScoring_speed]
  exact hg

lemma Update_speedInRange (g : Game ℝ) (inp : Input) (r₁ r₂ : ℝ)
    (hg : speedInRange realMath g) : speedInRange realMath (Update realMath g inp r₁ r₂) := by
  cases hp : (togglePause g inp).paused
  · rw [Update_of_unpaused realMath g inp r₁ r₂ hp]
    unfold physics
    have hbs := beforeScoring_speedInRange (togglePause g inp) inp
      (speedInRange_of_ball_eq g _ (togglePause_ball g inp) hg)
    rcases scoring_ball_cases realMath (beforeScoring realMath (togglePause g inp) inp) r₁ r₂
      with ⟨-, hb⟩ | ⟨g', b, hb⟩
    · exact speedInRange_of_ball_eq _ _ hb hbs
    · exact speedInRange_of_ball_eq _ _ hb (resetBall_speedInRange g' b r₁)
  · rw [Update_of_paused realMath g inp r₁ r₂ hp]
    exact speedInRange_of_ball_eq g _ (togglePause_ball g inp) hg

lemma run_speedInRange (fs : List (Frame ℝ)) (g : Game ℝ) (hg : speedInRange realMath g) :
    speedInRange realMath (run realMath g fs) := by
  induction fs generalizing g with
  | nil => exact hg
  | cons f fs ih =>
    simp only [run, List.foldl_cons]
    exact ih _ (Update_speedInRange g f.inp f.r₁ f.r₂ hg)

lemma hypot_serve_lt : realMath.Hypot (4 : ℝ) (3 / 2) < 12 := by
  show Real.sqrt ((4 : ℝ) ^ 2 + (3 / 2) ^ 2) < 12
  rw [Real.sqrt_lt' (by norm_num)]
  norm_num

/-- C17. Speed invariant: in every state reached from `NewGame` by any sequence of
`Update` steps, for arbitrary inputs and random draws (in particular draws in [0, 1)),
the ball's speed hypot(vx, vy) satisfies 4 <= speed <= hypot(4, 1.5) in exact real
arithmetic; so the displacement per frame is strictly less than PaddleWidth = 12. -/
theorem speed_invariant (r₀ : ℝ) (fs : List (Frame ℝ)) :
    4 ≤ realMath.Hypot (run realMath (NewGame realMath r₀) fs).ball.vx
      (run realMath (NewGame realMath r₀) fs).ball.vy ∧
    realMath.Hypot (run realMath (NewGame realMath r₀) fs).ball.vx
      (run realMath (NewGame realMath r₀) fs).ball.vy ≤ realMath.Hypot 4 (3 / 2) ∧
    realMath.Hypot (run realMath (NewGame realMath r₀) fs).ball.vx
      (run realMath (NewGame realMath r₀) fs).ball.vy < (PaddleWidth : ℝ) := by
  have h := run_speedInRange fs (NewGame realMath r₀) (resetBall_speedInRange _ true r₀)
  unfold speedInRange at h
  have h4 : (InitialSpeedX : ℝ) = 4 := rfl
  have h15 : (InitialSpeedY : ℝ) = 3 / 2 := rfl
  rw [h4, h15] at h
  refine ⟨h.1, h.2, ?_⟩
  rw [paddleWidth_eq]
  exact lt_of_le_of_lt h.2 hypot_serve_lt

end SpeedInvariant

/-! ## The ball keeps moving horizontally (exact arithmetic) -/

section HorizontalProgress

lemma minHorizontalSpeed_eq :
    minHorizontalSpeed realMath = 4 * Real.cos (82.5 * Real.pi / 180) := by
  show (4 : ℝ) * Real.cos (165 / 2 * Real.pi / 180) = 4 * Real.cos (82.5 * Real.pi / 180)
  norm_num

lemma cos_steepest_pos : 0 < Real.cos (82.5 * Real.pi / 180) := by
  have hpi := Real.pi_pos
  apply Real.cos_pos_of_mem_Ioo
  constructor <;> nlinarith

lemma minHorizontalSpeed_pos : 0 < minHorizontalSpeed realMath := by
  rw [minHorizontalSpeed_eq]
  exact mul_pos (by norm_num) cos_steepest_pos

lemma minHorizontalSpeed_le : minHorizontalSpeed realMath ≤ 4 := by
  rw [minHorizontalSpeed_eq]
  have := Real.cos_le_one (82.5 * Real.pi / 180)
  linarith

/-- The cosine of the bounce angle of a firing paddle branch is at least the cosine of
82.5 degrees. -/
lemma bounceAngle_cos_ge (py bally : ℝ)
    (h₁ : bally + (BallSize : ℝ) ≥ py) (h₂ : bally ≤ py + (PaddleHeight : ℝ)) :
    Real.cos (82.5 * Real.pi / 180) ≤ Real.cos (bounceAngle realMath py bally) := by
  have ha := bounceAngle_abs_le py bally h₁ h₂
  have hpi := Real.pi_pos
  rw [← Real.cos_abs (bounceAngle realMath py bally)]
  exact Real.cos_le_cos_of_nonneg_of_le_pi (abs_nonneg _) (by nlinarith) ha

/-- A bounce of a ball of speed at least 4 leaves it a horizontal speed of at least
4 cos(82.5 degrees). -/
lemma bounce_vx_ge (s py bally : ℝ) (hs : 4 ≤ s)
    (h₁ : bally + (BallSize : ℝ) ≥ py) (h₂ : bally ≤ py + (PaddleHeight : ℝ)) :
    minHorizontalSpeed realMath ≤ |s * Real.cos (bounceAngle realMath py bally)| := by
  rw [minHorizontalSpeed_eq]
  have hc := bounceAngle_cos_ge py bally h₁ h₂
  have hp := cos_steepest_pos
  have hpos : 0 ≤ s * Real.cos (bounceAngle realMath py bally) :=
    mul_nonneg (by linarith) (by linarith)
  rw [abs_of_nonneg hpos]
  nlinarith

lemma leftCollision_progress (g : Game ℝ) (hs : speedInRange realMath g)
    (hv : minHorizontalSpeed realMath ≤ |g.ball.vx|) :
    minHorizontalSpeed realMath ≤ |(leftCollision realMath g).ball.vx| := by
  by_cases h : leftHit g
  · rw [leftCollision_of_hit realMath g h]
    show _ ≤ |(|realMath.Hypot g.ball.vx g.ball.vy * Real.cos _|)|
    rw [abs_abs]
    exact bounce_vx_ge _ _ _ hs.1 h.2.2.1 h.2.2.2
  · rw [leftCollision_of_not_hit realMath g h]
    exact hv

lemma rightCollision_progress (g : Game ℝ) (hs : speedInRange realMath g)
    (hv : minHorizontalSpeed realMath ≤ |g.ball.vx|) :
    minHorizontalSpeed realMath ≤ |(rightCollision realMath g).ball.vx| := by
  by_cases h : rightHit g
  · rw [rightCollision_of_hit realMath g h]
    show _ ≤ |(-|realMath.Hypot g.ball.vx g.ball.vy * Real.cos _|)|
    rw [abs_neg, abs_abs]
    exact bounce_vx_ge _ _ _ hs.1 h.2.2.1 h.2.2.2
  · rw [rightCollision_of_not_hit realMath g h]
    exact hv

lemma leftCollision_speedInRange (g : Game ℝ) (hs : speedInRange realMath g) :
    speedInRange realMath (leftCollision realMath g) := by
  unfold speedInRange at hs ⊢
  rw [leftCollision_speed]
  exact hs

lemma beforePaddles_speedInRange (g : Game ℝ) (inp : Input) (hs : speedInRange realMath g) :
    speedInRange realMath (beforePaddles g inp) := by
  unfold speedInRange at hs ⊢
  rw [beforePaddles_speed]
  exact hs

lemma beforeScoring_progress (g : Game ℝ) (inp : Input) (hs : speedInRange realMath g)
    (hv : minHorizontalSpeed realMath ≤ |g.ball.vx|) :
    minHorizontalSpeed realMath ≤ |(beforeScoring realMath g inp).ball.vx| := by
  unfold beforeScoring
  have h₀ := beforePaddles_speedInRange g inp hs
  have h₁ : minHorizontalSpeed realMath ≤ |(beforePaddles g inp).ball.vx| := by
    rw [beforePaddles_ball_vx]; exact hv
  exact rightCollision_progress _ (leftCollision_speedInRange _ h₀)
    (leftCollision_progress _ h₀ h₁)

lemma resetBall_progress (g : Game ℝ) (b : Bool) (r : ℝ) :
    minHorizontalSpeed realMath ≤ |(resetBall realMath g b r).ball.vx| := by
  rw [resetBall_ball_vx]
  have h := minHorizontalSpeed_le
  cases b
  · simpa using h
  · simpa using h

lemma Update_progress (g : Game ℝ) (inp : Input) (r₁ r₂ : ℝ) (hs : speedInRange realMath g)
    (hv : minHorizontalSpeed realMath ≤ |g.ball.vx|) :
    minHorizontalSpeed realMath ≤ |(Update realMath g inp r₁ r₂).ball.vx| := by
  cases hp : (togglePause g inp).paused
  · rw [Update_of_unpaused realMath g inp r₁ r₂ hp]
    unfold physics
    have hbs := beforeScoring_progress (togglePause g inp) inp
      (speedInRange_of_ball_eq g _ (togglePause_ball g inp) hs)
      (by rw [togglePause_ball]; exact hv)
    rcases scoring_ball_cases realMath (beforeScoring realMath (togglePause g inp) inp) r₁ r₂
      with ⟨-, hb⟩ | ⟨g', b, hb⟩
    · rw [hb]; exact hbs
    · rw [hb]; exact resetBall_progress g' b r₁
  · rw [Update_of_paused realMath g inp r₁ r₂ hp, togglePause_ball]
    exact hv

lemma run_progress (fs : List (Frame ℝ)) (g : Game ℝ) (hs : speedInRange realMath g)
    (hv : minHorizontalSpeed realMath ≤ |g.ball.vx|) :
    minHorizontalSpeed realMath ≤ |(run realMath g fs).ball.vx| := by
  induction fs generalizing g with
  | nil => exact hv
  | cons f fs ih =>
    simp only [run, List.foldl_cons]
    exact ih _ (Update_speedInRange g f.inp f.r₁ f.r₂ hs)
      (Update_progress g f.inp f.r₁ f.r₂ hs hv)

/-- The horizontal-progress invariant in exact real arithmetic: in every state reached
from `NewGame` by any sequence of `Update` steps the ball's horizontal velocity satisfies
|vx| >= 4 cos(82.5 degrees) > 0.  (On float64 the bound itself depends on how `math.Cos`
and `math.Hypot` round.) -/
lemma horizontal_progress_exact (r₀ : ℝ) (fs : List (Frame ℝ)) :
    4 * Real.cos (82.5 * Real.pi / 180) ≤ |(run realMath (NewGame realMath r₀) fs).ball.vx| ∧
    0 < 4 * Real.cos (82.5 * Real.pi / 180) ∧
    (run realMath (NewGame realMath r₀) fs).ball.vx ≠ 0 := by
  have h := run_progress fs (NewGame realMath r₀) (resetBall_speedInRange _ true r₀)
    (resetBall_progress _ true r₀)
  have hp := minHorizontalSpeed_pos
  rw [minHorizontalSpeed_eq] at h hp
  refine ⟨h, hp, ?_⟩
  intro h0
  rw [h0, abs_zero] at h
  linarith

end HorizontalProgress

/-! ## Evaluating the float64 rounding -/

section Rounding
variable {F : Type} [LinearOrderedField F] [FloorRing F]

lemma roundHalfEven_of_lt (x : F) (z : ℤ) (h₁ : (z : F) ≤ x) (h₂ : x < z + 1 / 2) :
    roundHalfEven x = z := by
  have hf : ⌊x⌋ = z := Int.floor_eq_iff.mpr ⟨h₁, by linarith⟩
  unfold roundHalfEven
  rw [hf, if_pos (by linarith)]

lemma roundHalfEven_of_gt (x : F) (z : ℤ) (h₁ : (z : F) + 1 / 2 < x) (h₂ : x < z + 1) :
    roundHalfEven x = z + 1 := by
  have hf : ⌊x⌋ = z := Int.floor_eq_iff.mpr ⟨by linarith, h₂⟩
  unfold roundHalfEven
  rw [hf, if_neg (by linarith), if_pos (by linarith)]

lemma roundHalfEven_tie_even (x : F) (z : ℤ) (h : x = z + 1 / 2) (he : z % 2 = 0) :
    roundHalfEven x = z := by
  have hf : ⌊x⌋ = z := Int.floor_eq_iff.mpr ⟨by rw [h]; linarith, by rw [h]; linarith⟩
  unfold roundHalfEven
  rw [hf, if_neg (by rw [h]; simp), if_neg (by rw [h]; simp), if_pos he]

lemma log_two_eq (x : F) (k : ℤ) (hx : 0 < x) (h₁ : (2 : F) ^ k ≤ x) (h₂ : x < (2 : F) ^ (k + 1)) :
    Int.log 2 x = k := by
  have a : k ≤ Int.log 2 x := by
    apply (Int.zpow_le_iff_le_log (by norm_num : 1 < 2) hx).mp
    simpa using h₁
  have b : Int.log 2 x < k + 1 := by
    apply (Int.lt_zpow_iff_log_lt (by norm_num : 1 < 2) hx).mp
    simpa using h₂
  omega

/-- The rounding of a number whose 53-bit significand is `x * 2 ^ n`. -/
lemma fl64_eval (x : F) (n : ℕ) (z : ℤ) (h₁ : 2 ^ 52 ≤ |x| * 2 ^ n) (h₂ : |x| * 2 ^ n < 2 ^ 53)
    (hz : roundHalfEven (x * 2 ^ n) = z) : fl64 x = (z : F) / 2 ^ n := by
  have hpow : (0 : F) < 2 ^ n := by positivity
  have habs : 0 < |x| := by
    by_contra hc
    have : |x| = 0 := le_antisymm (not_lt.mp hc) (abs_nonneg x)
    rw [this, zero_mul] at h₁
    have : (0 : F) < 2 ^ 52 := by positivity
    linarith
  have hx : x ≠ 0 := abs_pos.mp habs
  have hlog : Int.log 2 |x| = 52 - n := by
    apply log_two_eq _ _ habs
    · rw [zpow_sub₀ (by norm_num : (2 : F) ≠ 0), zpow_natCast, div_le_iff₀ hpow]
      exact_mod_cast h₁
    · have e : (52 : ℤ) - n + 1 = 53 - n := by ring
      rw [e, zpow_sub₀ (by norm_num : (2 : F) ≠ 0), zpow_natCast, lt_div_iff₀ hpow]
      exact_mod_cast h₂
  unfold fl64
  rw [if_neg hx, hlog]
  have e : (52 : ℤ) - n - 52 = -(n : ℤ) := by ring
  rw [e, zpow_neg, zpow_natCast, div_inv_eq_mul, hz, div_eq_mul_inv]

end Rounding

section RoundingValues

/-- The float64 constant 0.1. -/
lemma fl64_tenth : fl64 (1 / 10 : ℝ) = 3602879701896397 / 2 ^ 55 := by
  have h : fl64 (1 / 10 : ℝ) = ((7205759403792794 : ℤ) : ℝ) / 2 ^ 56 := by
    apply fl64_eval _ 56
    · rw [abs_of_pos (by norm_num)]; norm_num
    · rw [abs_of_pos (by norm_num)]; norm_num
    · have e := roundHalfEven_of_gt ((1 / 10 : ℝ) * 2 ^ 56) (7205759403792793) (by norm_num) (by norm_num)
      rw [e]; norm_num
  rw [h]; norm_num

lemma fl64_tenth_sub_six : fl64 (3602879701896397 / 2 ^ 55 - 6 : ℝ) = -(3321404725185741 / 2 ^ 49) := by
  have h : fl64 (3602879701896397 / 2 ^ 55 - 6 : ℝ) = ((-6642809450371482 : ℤ) : ℝ) / 2 ^ 50 := by
    apply fl64_eval _ 50
    · rw [abs_of_neg (by norm_num)]; norm_num
    · rw [abs_of_neg (by norm_num)]; norm_num
    · exact roundHalfEven_of_lt _ _ (by norm_num) (by norm_num)
  rw [h]; norm_num

lemma fl64_tenth_sub_add_six : fl64 (-(3321404725185741 / 2 ^ 49) + 6 : ℝ) = 56294995342131 / 2 ^ 49 := by
  have h : fl64 (-(3321404725185741 / 2 ^ 49) + 6 : ℝ) = ((7205759403792768 : ℤ) : ℝ) / 2 ^ 56 := by
    apply fl64_eval _ 56
    · rw [abs_of_pos (by norm_num)]; norm_num
    · rw [abs_of_pos (by norm_num)]; norm_num
    · exact roundHalfEven_of_lt _ _ (by norm_num) (by norm_num)
  rw [h]; norm_num

end RoundingValues

/-! ## The float64 reading: what the blocks leave untouched -/

section FrameF64
variable {F : Type} [LinearOrderedField F] [FloorRing F]

@[simp] lemma moveBallF64_leftPaddle (g : Game (Float64 F)) :
    (moveBallF64 g).leftPaddle = g.leftPaddle := rfl

@[simp] lemma wallCollisionF64_leftPaddle (g : Game (Float64 F)) :
    (wallCollisionF64 g).leftPaddle = g.leftPaddle := by
  unfold wallCollisionF64; simp only []; split_ifs <;> rfl

@[simp] lemma leftCollisionF64_leftPaddle (m : MathOpsF64 F) (g : Game (Float64 F)) :
    (leftCollisionF64 m g).leftPaddle = g.leftPaddle := by
  unfold leftCollisionF64; split_ifs <;> rfl

@[simp] lemma rightCollisionF64_leftPaddle (m : MathOpsF64 F) (g : Game (Float64 F)) :
    (rightCollisionF64 m g).leftPaddle = g.leftPaddle := by
  unfold rightCollisionF64; split_ifs <;> rfl

@[simp] lemma scoringF64_leftPaddle (m : MathOpsF64 F) (g : Game (Float64 F))
    (r₁ r₂ : Float64 F) : (scoringF64 m g r₁ r₂).leftPaddle = g.leftPaddle := by
  unfold scoringF64 scoreLeftF64 scoreRightF64 resetBallF64
  split_ifs <;> rfl

/-- In an unpaused float64 step the left paddle is the one left by lines 107-134. -/
lemma UpdateF64_leftPaddle (m : MathOpsF64 F) (g : Game (Float64 F)) (inp : Input)
    (r₁ r₂ : Float64 F) (h : (togglePause g inp).paused = false) :
    (UpdateF64 m g inp r₁ r₂).leftPaddle =
      (clampPaddlesF64 (movePaddlesF64 (togglePause g inp) inp)).leftPaddle := by
  unfold UpdateF64
  simp only [h, Bool.false_eq_true, if_false]
  simp [beforePaddlesF64]

lemma movePaddlesF64_leftPaddle_both (g : Game (Float64 F)) :
    (movePaddlesF64 g keysWS).leftPaddle.y =
      addF64 (subF64 g.leftPaddle.y (some 6)) (some 6) := by
  simp [movePaddlesF64, keysWS, paddleSpeed_eq]

end FrameF64

section FrameF64Clamp
variable {F : Type} [LinearOrderedField F]

/-- A left paddle inside `[0, 980]` passes the two clamping tests. -/
lemma clampPaddlesF64_leftPaddle_of_mem (g : Game (Float64 F)) (v : F)
    (h : g.leftPaddle.y = some v) (h₀ : 0 ≤ v) (h₁ : v ≤ 980) :
    (clampPaddlesF64 g).leftPaddle.y = some v := by
  have a : ltF64 g.leftPaddle.y (some 0) = false := by
    rw [h]; simp [ltF64, h₀]
  have b : gtF64 g.leftPaddle.y (some ((ScreenHeight - PaddleHeight : Int) : F)) = false := by
    rw [h, paddleMax_eq]; simp [gtF64, ltF64, h₁]
  unfold clampPaddlesF64
  simp only [a, b, Bool.false_eq_true, if_false]
  split_ifs <;> exact h

end FrameF64Clamp

section PaddleMotionF64

/-- C11, as stated, fails on the float64 arithmetic of the program: with the left paddle
at y = 0.1 (the float64 nearest to 1/10, inside [0, 980]) and W and S both held, the step
is unpaused and computes (0.1 - 6) + 6 = 0.09999999999999964 (= 56294995342131 / 2^49),
which differs from the old y. -/
theorem paddle_motion_counterexample :
    fl64 (1 / 10 : ℝ) = 3602879701896397 / 2 ^ 55 ∧
    ((0 : ℝ) ≤ 3602879701896397 / 2 ^ 55 ∧ (3602879701896397 / 2 ^ 55 : ℝ) ≤ 980) ∧
    (togglePause (stateF64 (some (3602879701896397 / 2 ^ 55 : ℝ))
      { x := some 955, y := some 535, vx := some 4, vy := some 0 }) keysWS).paused = false ∧
    (UpdateF64 ieeeMath (stateF64 (some (3602879701896397 / 2 ^ 55 : ℝ))
      { x := some 955, y := some 535, vx := some 4, vy := some 0 }) keysWS
      (some 0) (some 0)).leftPaddle.y = some (56294995342131 / 2 ^ 49) ∧
    (56294995342131 / 2 ^ 49 : ℝ) ≠ 3602879701896397 / 2 ^ 55 := by
  refine ⟨fl64_tenth, ⟨by norm_num, by norm_num⟩, rfl, ?_, by norm_num⟩
  rw [UpdateF64_leftPaddle ieeeMath (stateF64 (some (3602879701896397 / 2 ^ 55 : ℝ))
    { x := some 955, y := some 535, vx := some 4, vy := some 0 }) keysWS (some 0) (some 0) rfl]
  apply clampPaddlesF64_leftPaddle_of_mem _ _ _ (by norm_num) (by norm_num)
  rw [movePaddlesF64_leftPaddle_both]
  show addF64 (subF64 (some (3602879701896397 / 2 ^ 55 : ℝ)) (some 6)) (some 6) = _
  simp only [subF64, addF64, fl64_tenth_sub_six, fl64_tenth_sub_add_six]

end PaddleMotionF64

/-! ## The float64 reading: a NaN coordinate -/

section NaNClamp
variable {F : Type} [LinearOrderedField F]

end NaNClamp

section NaN
variable {F : Type} [LinearOrderedField F] [FloorRing F]

end NaN

section NaNReal

end NaNReal

/-! ## The float64 reading: a hit at the lower end of a paddle -/

section EdgeHitF64

end EdgeHitF64

end Pong
